import Mathlib

/-
Verification of the rlgl render-batch core (src/rlgl.h) against its
natural-language specification.

The source is C; we shallowly embed the parts of the program the claims
are about.  Scalars that are `float` in the source are modelled as `ℚ`
(exact arithmetic standing in for IEEE floats; every claim below is about
control flow, counters, copy semantics or the *side* on which a matrix
multiplication happens, none of which depend on rounding).  Results of
libm calls (sinf, cosf, sqrtf) are passed in as explicit oracle arguments
where a modelled function uses them, since they are external to the
program.  C `int` comparisons that can go negative are done in `ℤ`.
-/

namespace Rlgl

/-! ## Matrices (rlgl.h GETS(Matrix): sixteen floats, column-major fields
m0..m15 where entry (row i, col j) is field m(i+4j)) -/

structure M4 where
  m0 : ℚ
  m1 : ℚ
  m2 : ℚ
  m3 : ℚ
  m4 : ℚ
  m5 : ℚ
  m6 : ℚ
  m7 : ℚ
  m8 : ℚ
  m9 : ℚ
  m10 : ℚ
  m11 : ℚ
  m12 : ℚ
  m13 : ℚ
  m14 : ℚ
  m15 : ℚ
deriving DecidableEq

/-- rlMatrixIdentity (rlgl.h): the identity matrix. -/
def rlMatrixIdentity : M4 :=
  { m0 := 1, m1 := 0, m2 := 0, m3 := 0
    m4 := 0, m5 := 1, m6 := 0, m7 := 0
    m8 := 0, m9 := 0, m10 := 1, m11 := 0
    m12 := 0, m13 := 0, m14 := 0, m15 := 1 }

/-- rlMatrixMultiply (rlgl.h), transcribed entry by entry. -/
def rlMatrixMultiply (left right : M4) : M4 :=
  { m0 := left.m0*right.m0 + left.m1*right.m4 + left.m2*right.m8 + left.m3*right.m12
    m1 := left.m0*right.m1 + left.m1*right.m5 + left.m2*right.m9 + left.m3*right.m13
    m2 := left.m0*right.m2 + left.m1*right.m6 + left.m2*right.m10 + left.m3*right.m14
    m3 := left.m0*right.m3 + left.m1*right.m7 + left.m2*right.m11 + left.m3*right.m15
    m4 := left.m4*right.m0 + left.m5*right.m4 + left.m6*right.m8 + left.m7*right.m12
    m5 := left.m4*right.m1 + left.m5*right.m5 + left.m6*right.m9 + left.m7*right.m13
    m6 := left.m4*right.m2 + left.m5*right.m6 + left.m6*right.m10 + left.m7*right.m14
    m7 := left.m4*right.m3 + left.m5*right.m7 + left.m6*right.m11 + left.m7*right.m15
    m8 := left.m8*right.m0 + left.m9*right.m4 + left.m10*right.m8 + left.m11*right.m12
    m9 := left.m8*right.m1 + left.m9*right.m5 + left.m10*right.m9 + left.m11*right.m13
    m10 := left.m8*right.m2 + left.m9*right.m6 + left.m10*right.m10 + left.m11*right.m14
    m11 := left.m8*right.m3 + left.m9*right.m7 + left.m10*right.m11 + left.m11*right.m15
    m12 := left.m12*right.m0 + left.m13*right.m4 + left.m14*right.m8 + left.m15*right.m12
    m13 := left.m12*right.m1 + left.m13*right.m5 + left.m14*right.m9 + left.m15*right.m13
    m14 := left.m12*right.m2 + left.m13*right.m6 + left.m14*right.m10 + left.m15*right.m14
    m15 := left.m12*right.m3 + left.m13*right.m7 + left.m14*right.m11 + left.m15*right.m15 }

/-- The translation matrix built inline by rlTranslatef.  The C brace
initializer lists the struct fields in declaration order
(m0, m4, m8, m12, m1, ...), so x, y, z land in fields m12, m13, m14. -/
def matTranslation (x y z : ℚ) : M4 :=
  { m0 := 1, m4 := 0, m8 := 0, m12 := x
    m1 := 0, m5 := 1, m9 := 0, m13 := y
    m2 := 0, m6 := 0, m10 := 1, m14 := z
    m3 := 0, m7 := 0, m11 := 0, m15 := 1 }

/-- The rotation matrix built by rlRotatef after axis normalization.
`sinres` and `cosres` stand for the libm results sinf(DEG2RAD*angle) and
cosf(DEG2RAD*angle); `invLen` stands for 1.0f/sqrtf(lengthSquared).
The normalization branch is transcribed from the source: the axis is
scaled by invLen unless its squared length is exactly 1 or 0. -/
def matRotationOf (x y z sinres cosres invLen : ℚ) : M4 :=
  let lengthSquared := x*x + y*y + z*z
  let x := if lengthSquared ≠ 1 ∧ lengthSquared ≠ 0 then x*invLen else x
  let y := if lengthSquared ≠ 1 ∧ lengthSquared ≠ 0 then y*invLen else y
  let z := if lengthSquared ≠ 1 ∧ lengthSquared ≠ 0 then z*invLen else z
  let t := 1 - cosres
  { m0 := x*x*t + cosres
    m1 := y*x*t + z*sinres
    m2 := z*x*t - y*sinres
    m3 := 0
    m4 := x*y*t - z*sinres
    m5 := y*y*t + cosres
    m6 := z*y*t + x*sinres
    m7 := 0
    m8 := x*z*t + y*sinres
    m9 := y*z*t - x*sinres
    m10 := z*z*t + cosres
    m11 := 0
    m12 := 0
    m13 := 0
    m14 := 0
    m15 := 1 }

/-- The scaling matrix built inline by rlScalef. -/
def matScale (x y z : ℚ) : M4 :=
  { m0 := x, m4 := 0, m8 := 0, m12 := 0
    m1 := 0, m5 := y, m9 := 0, m13 := 0
    m2 := 0, m6 := 0, m10 := z, m14 := 0
    m3 := 0, m7 := 0, m11 := 0, m15 := 1 }

/-- The perspective matrix built by rlFrustum (all float casts collapse
in the exact model). -/
def matFrustumOf (left right bottom top znear zfar : ℚ) : M4 :=
  let rl := right - left
  let tb := top - bottom
  let fn := zfar - znear
  { m0 := (znear*2)/rl, m1 := 0, m2 := 0, m3 := 0
    m4 := 0, m5 := (znear*2)/tb, m6 := 0, m7 := 0
    m8 := (right + left)/rl
    m9 := (top + bottom)/tb
    m10 := -(zfar + znear)/fn
    m11 := -1
    m12 := 0, m13 := 0
    m14 := -(zfar*znear*2)/fn
    m15 := 0 }

/-- The orthographic matrix built by rlOrtho. -/
def matOrthoOf (left right bottom top znear zfar : ℚ) : M4 :=
  let rl := right - left
  let tb := top - bottom
  let fn := zfar - znear
  { m0 := 2/rl, m1 := 0, m2 := 0, m3 := 0
    m4 := 0, m5 := 2/tb, m6 := 0, m7 := 0
    m8 := 0, m9 := 0, m10 := -2/fn, m11 := 0
    m12 := -(left + right)/rl
    m13 := -(top + bottom)/tb
    m14 := -(zfar + znear)/fn
    m15 := 1 }

/-! ## Matrix stack state machine (RLGL.State matrix fields) -/

/-- The two matrix modes rlMatrixMode supports (RL_PROJECTION and
RL_MODELVIEW; RL_TEXTURE is not supported by the source). -/
inductive MatrixMode where
  | projection
  | modelview
deriving DecidableEq

/-- Which matrix RLGL.State.currentMatrix points at. -/
inductive CurrentPtr where
  | projPtr
  | modelPtr
  | transfPtr
deriving DecidableEq

/-- The matrix-related fields of RLGL.State.  The C stack is a fixed
array GETS(Matrix) stack[RL_MAX_MATRIX_STACK_SIZE]; we model it as a
total function so that the out-of-bounds write performed by the source's
rlPushMatrix on overflow is expressible (in C it is undefined behavior). -/
structure MatrixState where
  currentMatrixMode : MatrixMode
  projection : M4
  modelview : M4
  transform : M4
  stack : ℕ → M4
  stackCounter : ℕ
  transformRequired : Bool
  currentPtr : CurrentPtr

/-- RL_MAX_MATRIX_STACK_SIZE (rlgl.h, default 32). -/
def RL_MAX_MATRIX_STACK_SIZE : ℕ := 32

/-- Dereference RLGL.State.currentMatrix. -/
def readCur (s : MatrixState) : M4 :=
  match s.currentPtr with
  | .projPtr => s.projection
  | .modelPtr => s.modelview
  | .transfPtr => s.transform

/-- Assign through RLGL.State.currentMatrix. -/
def writeCur (v : M4) (s : MatrixState) : MatrixState :=
  match s.currentPtr with
  | .projPtr => { s with projection := v }
  | .modelPtr => { s with modelview := v }
  | .transfPtr => { s with transform := v }

/-- rlMatrixMode (rlgl.h): select the matrix subsequent operations
affect and record the mode. -/
def rlMatrixMode (mode : MatrixMode) (s : MatrixState) : MatrixState :=
  let s :=
    match mode with
    | .projection => { s with currentPtr := .projPtr }
    | .modelview => { s with currentPtr := .modelPtr }
  { s with currentMatrixMode := mode }

/-- rlPushMatrix (rlgl.h).  On stackCounter ≥ RL_MAX_MATRIX_STACK_SIZE
the source only emits TRACELOG(RL_LOG_ERROR, ...) and then falls
through: it still redirects the current-matrix pointer in modelview
mode, writes stack[stackCounter] (out of bounds in C) and increments
the counter.  The model mirrors that fall-through exactly. -/
def rlPushMatrix (s : MatrixState) : MatrixState :=
  let s :=
    if s.currentMatrixMode = .modelview then
      { s with transformRequired := true, currentPtr := .transfPtr }
    else s
  { s with stack := Function.update s.stack s.stackCounter (readCur s)
           stackCounter := s.stackCounter + 1 }

/-- rlPopMatrix (rlgl.h). -/
def rlPopMatrix (s : MatrixState) : MatrixState :=
  let s :=
    if 0 < s.stackCounter then
      let mat := s.stack (s.stackCounter - 1)
      let s := writeCur mat s
      { s with stackCounter := s.stackCounter - 1 }
    else s
  if s.stackCounter = 0 ∧ s.currentMatrixMode = .modelview then
    { s with currentPtr := .modelPtr, transformRequired := false }
  else s

/-- rlLoadIdentity (rlgl.h). -/
def rlLoadIdentity (s : MatrixState) : MatrixState :=
  writeCur rlMatrixIdentity s

/-- rlTranslatef (rlgl.h): current = rlMatrixMultiply(matTranslation, current). -/
def rlTranslatef (x y z : ℚ) (s : MatrixState) : MatrixState :=
  writeCur (rlMatrixMultiply (matTranslation x y z) (readCur s)) s

/-- rlRotatef (rlgl.h): current = rlMatrixMultiply(matRotation, current).
The angle enters only through the libm oracle arguments sinres/cosres;
invLen is the oracle for 1.0f/sqrtf of the squared axis length. -/
def rlRotatef (x y z sinres cosres invLen : ℚ) (s : MatrixState) : MatrixState :=
  writeCur (rlMatrixMultiply (matRotationOf x y z sinres cosres invLen) (readCur s)) s

/-- rlScalef (rlgl.h): current = rlMatrixMultiply(matScale, current). -/
def rlScalef (x y z : ℚ) (s : MatrixState) : MatrixState :=
  writeCur (rlMatrixMultiply (matScale x y z) (readCur s)) s

/-- rlFrustum (rlgl.h): current = rlMatrixMultiply(current, matFrustum). -/
def rlFrustum (left right bottom top znear zfar : ℚ) (s : MatrixState) : MatrixState :=
  writeCur (rlMatrixMultiply (readCur s) (matFrustumOf left right bottom top znear zfar)) s

/-- rlOrtho (rlgl.h): current = rlMatrixMultiply(current, matOrtho). -/
def rlOrtho (left right bottom top znear zfar : ℚ) (s : MatrixState) : MatrixState :=
  writeCur (rlMatrixMultiply (readCur s) (matOrthoOf left right bottom top znear zfar)) s

/-- A translate / rotate / scale call, the operations claim C8
quantifies over.  Rotate carries its libm oracle values. -/
inductive TrsOp where
  | translate (x y z : ℚ)
  | rotate (x y z sinres cosres invLen : ℚ)
  | scale (x y z : ℚ)

/-- Apply one translate/rotate/scale call. -/
def applyTrs (op : TrsOp) (s : MatrixState) : MatrixState :=
  match op with
  | .translate x y z => rlTranslatef x y z s
  | .rotate x y z sr cr il => rlRotatef x y z sr cr il s
  | .scale x y z => rlScalef x y z s

/-- Run a sequence of translate/rotate/scale calls. -/
def runTrs (ops : List TrsOp) (s : MatrixState) : MatrixState :=
  ops.foldl (fun s op => applyTrs op s) s

/-- The matrix state set up by rlglInit: all matrices identity, stack
slots identity, counter 0, currentMatrix = &modelview.  rlglInit leaves
currentMatrixMode to the zero-initialized global; every raylib frame
selects RL_MODELVIEW before issuing transforms, so the model starts in
modelview mode. -/
def initMatrixState : MatrixState :=
  { currentMatrixMode := .modelview
    projection := rlMatrixIdentity
    modelview := rlMatrixIdentity
    transform := rlMatrixIdentity
    stack := fun _ => rlMatrixIdentity
    stackCounter := 0
    transformRequired := false
    currentPtr := .modelPtr }

/-! ## Render batch state machine (rlgl.h, GRAPHICS_API_OPENGL_33 paths)

The batch-relevant fields of the RLGL global plus the current render
batch are collected into one record.  rlLoadRenderBatch gives every
buffer of a batch the same elementCount, so a single field carries the
capacity.  The draw-call ledger draws[0..drawCounter-1] is modelled as
the list of already-closed calls plus the open call
(drawCounter = closedDraws.length + 1).  The source's flush does not
reset the stale vertexAlignment of array slots: slot 0 keeps its old
alignment across a reset (modelled), while the alignment a freshly
exposed slot carries after drawCounter++ is dead state, always
overwritten at close before any read, and is modelled as 0.
GPU-facing effects are modelled as event counters: flushCount counts
rlDrawRenderBatch invocations, gpuSubmissions counts those that upload
and issue draws (vertexCounter > 0), submittedVertices accumulates the
uploaded prefix lengths.  Stereo rendering is off (eyeCount = 1). -/

/-- The three primitive modes vertex accumulation supports
(RL_LINES, RL_TRIANGLES, RL_QUADS). -/
inductive DrawMode where
  | lines
  | triangles
  | quads
deriving DecidableEq

/-- rlDrawCall (rlgl.h): one ledger entry. -/
structure DrawCall where
  mode : DrawMode
  vertexCount : ℕ
  vertexAlignment : ℕ
  textureId : ℕ
deriving DecidableEq

/-- One rlVertex3f write: the buffer slot index and the attribute
values stored there (position after the optional transform, texcoord /
normal / color pens).  Index i touches positions[3i..3i+2],
texcoords[2i..2i+1], normals[3i..3i+2] and colors[4i..4i+3], all in
bounds exactly when i < elementCount*4. -/
structure VertexWrite where
  index : ℕ
  px : ℚ
  py : ℚ
  pz : ℚ
  u : ℚ
  v : ℚ
  nx : ℚ
  ny : ℚ
  nz : ℚ
  r : ℕ
  g : ℕ
  b : ℕ
  a : ℕ
deriving DecidableEq

/-- Batch controller + active batch state. -/
structure BatchState where
  elementCount : ℕ
  bufferCount : ℕ
  currentBuffer : ℕ
  closedDraws : List DrawCall
  openDraw : DrawCall
  vertexCounter : ℕ
  currentDepth : ℚ
  defaultTextureId : ℕ
  currentShaderId : ℕ
  currentShaderLocs : ℕ
  transformRequired : Bool
  transform : M4
  texcoordx : ℚ
  texcoordy : ℚ
  normalx : ℚ
  normaly : ℚ
  normalz : ℚ
  colorr : ℕ
  colorg : ℕ
  colorb : ℕ
  colora : ℕ
  writes : List VertexWrite
  flushCount : ℕ
  gpuSubmissions : ℕ
  submittedVertices : ℕ
deriving DecidableEq

/-- RL_DEFAULT_BATCH_DRAWCALLS (rlgl.h, default 256). -/
def RL_DEFAULT_BATCH_DRAWCALLS : ℕ := 256

/-- The ledger in draw order: closed calls then the open call
(draws[0..drawCounter-1] in the source). -/
def ledger (s : BatchState) : List DrawCall :=
  s.closedDraws ++ [s.openDraw]

/-- drawCounter: number of ledger entries in use (starts at 1). -/
def drawCounter (s : BatchState) : ℕ :=
  s.closedDraws.length + 1

/-- rlDrawRenderBatch (rlgl.h).  If vertexCounter > 0 the written
prefixes are uploaded and one draw is issued per ledger entry (counted
by gpuSubmissions / submittedVertices); in all cases the bookkeeping is
reset: vertexCounter to 0, currentDepth to -1.0f, every ledger slot to
mode RL_QUADS / vertexCount 0 / the default texture (the loop does not
touch vertexAlignment, so slot 0 keeps its stale alignment), drawCounter
to 1, and currentBuffer advances round-robin. -/
def rlDrawRenderBatch (s : BatchState) : BatchState :=
  { s with
    gpuSubmissions := if 0 < s.vertexCounter then s.gpuSubmissions + 1 else s.gpuSubmissions
    submittedVertices :=
      if 0 < s.vertexCounter then s.submittedVertices + s.vertexCounter
      else s.submittedVertices
    vertexCounter := 0
    currentDepth := -1
    closedDraws := []
    openDraw :=
      { mode := .quads
        vertexCount := 0
        vertexAlignment := (s.closedDraws.headD s.openDraw).vertexAlignment
        textureId := s.defaultTextureId }
    currentBuffer := if s.bufferCount ≤ s.currentBuffer + 1 then 0 else s.currentBuffer + 1
    flushCount := s.flushCount + 1 }

/-- rlCheckRenderBatchLimit (rlgl.h): if vertexCounter + vCount reaches
elementCount*4, save the open call's mode and texture, flush, and
restore them onto the reset ledger's single open call; returns whether
the overflow flush happened. -/
def rlCheckRenderBatchLimit (vCount : ℕ) (s : BatchState) : Bool × BatchState :=
  if s.elementCount * 4 ≤ s.vertexCounter + vCount then
    let currentMode := s.openDraw.mode
    let currentTexture := s.openDraw.textureId
    let s := rlDrawRenderBatch s
    (true, { s with openDraw :=
      { s.openDraw with mode := currentMode, textureId := currentTexture } })
  else
    (false, s)

/-- The vertexAlignment computed when a draw call is closed (the
identical blocks in rlBegin and rlSetTexture): 0 for RL_QUADS; for
RL_LINES, vertexCount if vertexCount < 4 else vertexCount % 4; for
RL_TRIANGLES, 1 if vertexCount < 4 else 4 - vertexCount % 4. -/
def closeAlignment (mode : DrawMode) (vertexCount : ℕ) : ℕ :=
  match mode with
  | .lines => if vertexCount < 4 then vertexCount else vertexCount % 4
  | .triangles => if vertexCount < 4 then 1 else 4 - vertexCount % 4
  | .quads => 0

/-- Closing the current draw call (the block shared verbatim by rlBegin
and rlSetTexture, entered when vertexCount > 0): set the open call's
vertexAlignment, then rlCheckRenderBatchLimit(alignment); if it did not
flush, advance vertexCounter by the alignment and move to the next
ledger slot (drawCounter++, the fresh slot holding its reset values
mode RL_QUADS / vertexCount 0 / default texture). -/
def closeDrawCall (s : BatchState) : BatchState :=
  let a := closeAlignment s.openDraw.mode s.openDraw.vertexCount
  let s := { s with openDraw := { s.openDraw with vertexAlignment := a } }
  let r := rlCheckRenderBatchLimit a s
  if r.1 then r.2
  else
    { r.2 with
      vertexCounter := r.2.vertexCounter + a
      closedDraws := r.2.closedDraws ++ [r.2.openDraw]
      openDraw :=
        { mode := .quads, vertexCount := 0, vertexAlignment := 0
          textureId := r.2.defaultTextureId } }

/-- rlBegin (rlgl.h): on a mode change, close the current call when it
has vertices, flush when the ledger is full, then retarget the open call
to the new mode with vertexCount 0 and the default texture. -/
def rlBegin (mode : DrawMode) (s : BatchState) : BatchState :=
  if s.openDraw.mode ≠ mode then
    let s := if 0 < s.openDraw.vertexCount then closeDrawCall s else s
    let s := if RL_DEFAULT_BATCH_DRAWCALLS ≤ drawCounter s then rlDrawRenderBatch s else s
    { s with openDraw :=
      { s.openDraw with mode := mode, vertexCount := 0, textureId := s.defaultTextureId } }
  else s

/-- rlEnd (rlgl.h): advance the synthetic depth by 1/20000. -/
def rlEnd (s : BatchState) : BatchState :=
  { s with currentDepth := s.currentDepth + 1/20000 }

/-- The buffer-limit stage at the top of rlVertex3f (rlgl.h): when the
cursor is within 4 vertices of capacity and the open call sits at a
primitive boundary (mod 2 / 3 / 4 by mode), call
rlCheckRenderBatchLimit(2+1 / 3+1 / 4+1).  The capacity comparison is C
int arithmetic, done in ℤ. -/
def vertexBoundaryCheck (s : BatchState) : BatchState :=
  if (s.vertexCounter : ℤ) > (s.elementCount : ℤ) * 4 - 4 then
    if s.openDraw.mode = .lines ∧ s.openDraw.vertexCount % 2 = 0 then
      (rlCheckRenderBatchLimit (2 + 1) s).2
    else if s.openDraw.mode = .triangles ∧ s.openDraw.vertexCount % 3 = 0 then
      (rlCheckRenderBatchLimit (3 + 1) s).2
    else if s.openDraw.mode = .quads ∧ s.openDraw.vertexCount % 4 = 0 then
      (rlCheckRenderBatchLimit (4 + 1) s).2
    else s
  else s

/-- rlVertex3f (rlgl.h): transform the position if a push/pop session is
active, run the buffer-limit stage, then store the attribute data at
the cursor and advance both the cursor and the open call's
vertexCount. -/
def rlVertex3f (x y z : ℚ) (s : BatchState) : BatchState :=
  let tx := if s.transformRequired then
      s.transform.m0*x + s.transform.m4*y + s.transform.m8*z + s.transform.m12 else x
  let ty := if s.transformRequired then
      s.transform.m1*x + s.transform.m5*y + s.transform.m9*z + s.transform.m13 else y
  let tz := if s.transformRequired then
      s.transform.m2*x + s.transform.m6*y + s.transform.m10*z + s.transform.m14 else z
  let s := vertexBoundaryCheck s
  { s with
    writes := s.writes ++
      [{ index := s.vertexCounter, px := tx, py := ty, pz := tz
         u := s.texcoordx, v := s.texcoordy
         nx := s.normalx, ny := s.normaly, nz := s.normalz
         r := s.colorr, g := s.colorg, b := s.colorb, a := s.colora }]
    vertexCounter := s.vertexCounter + 1
    openDraw := { s.openDraw with vertexCount := s.openDraw.vertexCount + 1 } }

/-- rlTexCoord2f (rlgl.h): set the texcoord pen. -/
def rlTexCoord2f (x y : ℚ) (s : BatchState) : BatchState :=
  { s with texcoordx := x, texcoordy := y }

/-- rlColor4ub (rlgl.h): set the color pen. -/
def rlColor4ub (r g b a : ℕ) (s : BatchState) : BatchState :=
  { s with colorr := r, colorg := g, colorb := b, colora := a }

/-- rlSetTexture (rlgl.h).  id 0: flush only when the cursor already
reached capacity.  Nonzero id different from the open call's texture:
close the current call when it has vertices, flush when the ledger is
full, then retarget the open call to the new texture with vertexCount 0
(its mode field is left as is, matching the source). -/
def rlSetTexture (id : ℕ) (s : BatchState) : BatchState :=
  if id = 0 then
    if s.elementCount * 4 ≤ s.vertexCounter then rlDrawRenderBatch s else s
  else
    if s.openDraw.textureId ≠ id then
      let s := if 0 < s.openDraw.vertexCount then closeDrawCall s else s
      let s := if RL_DEFAULT_BATCH_DRAWCALLS ≤ drawCounter s then rlDrawRenderBatch s else s
      { s with openDraw := { s.openDraw with textureId := id, vertexCount := 0 } }
    else s

/-- rlSetShader (rlgl.h): on an id change, flush the pending batch, then
install the new shader id and its locations array (an opaque tag here). -/
def rlSetShader (id locs : ℕ) (s : BatchState) : BatchState :=
  if s.currentShaderId ≠ id then
    let s := rlDrawRenderBatch s
    { s with currentShaderId := id, currentShaderLocs := locs }
  else s

/-- The public batch-facing calls the claims range over. -/
inductive Op where
  | beginMode (mode : DrawMode)
  | vertex (x y z : ℚ)
  | endMode
  | texCoord (x y : ℚ)
  | color (r g b a : ℕ)
  | setTexture (id : ℕ)
  | setShader (id locs : ℕ)
  | drawBatch
  | checkLimit (n : ℕ)

/-- Apply one call. -/
def applyOp (op : Op) (s : BatchState) : BatchState :=
  match op with
  | .beginMode mode => rlBegin mode s
  | .vertex x y z => rlVertex3f x y z s
  | .endMode => rlEnd s
  | .texCoord x y => rlTexCoord2f x y s
  | .color r g b a => rlColor4ub r g b a s
  | .setTexture id => rlSetTexture id s
  | .setShader id locs => rlSetShader id locs s
  | .drawBatch => rlDrawRenderBatch s
  | .checkLimit n => (rlCheckRenderBatchLimit n s).2

/-- Run a call sequence. -/
def runOps (ops : List Op) (s : BatchState) : BatchState :=
  ops.foldl (fun s op => applyOp op s) s

/-- The state rlglInit + rlLoadRenderBatch leave behind: empty ledger
with one open RL_QUADS call bound to the default texture, cursor 0,
depth -1.0f, buffer 0 of bufferCount, all pens zero-initialized, no
transform session. -/
def initBatch (cap nbuf defTex shaderId : ℕ) : BatchState :=
  { elementCount := cap
    bufferCount := nbuf
    currentBuffer := 0
    closedDraws := []
    openDraw := { mode := .quads, vertexCount := 0, vertexAlignment := 0, textureId := defTex }
    vertexCounter := 0
    currentDepth := -1
    defaultTextureId := defTex
    currentShaderId := shaderId
    currentShaderLocs := 0
    transformRequired := false
    transform := rlMatrixIdentity
    texcoordx := 0
    texcoordy := 0
    normalx := 0
    normaly := 0
    normalz := 0
    colorr := 0
    colorg := 0
    colorb := 0
    colora := 0
    writes := []
    flushCount := 0
    gpuSubmissions := 0
    submittedVertices := 0 }

/-- Primitive arity: vertices per primitive for each mode (2 for
RL_LINES, 3 for RL_TRIANGLES, 4 for RL_QUADS). -/
def arity : DrawMode → ℕ
  | .lines => 2
  | .triangles => 3
  | .quads => 4

/-- Vertices still missing to complete the open primitive. -/
def padTo (m : DrawMode) (c : ℕ) : ℕ :=
  (arity m - c % arity m) % arity m

/-- The inductive invariant of the batch machine: capacity is fixed,
the cursor plus the room needed to finish the open primitive fits in
the buffer, and every write so far landed strictly below
elementCount*4. -/
def BatchInv (cap : ℕ) (s : BatchState) : Prop :=
  s.elementCount = cap ∧
  s.vertexCounter + padTo s.openDraw.mode s.openDraw.vertexCount ≤ cap * 4 ∧
  ∀ w ∈ s.writes, w.index < cap * 4

/-- A matrix state whose stack is full: stackCounter at
RL_MAX_MATRIX_STACK_SIZE inside a modelview transform session. -/
def fullStackState : MatrixState :=
  { initMatrixState with
    stackCounter := RL_MAX_MATRIX_STACK_SIZE
    currentPtr := .transfPtr
    transformRequired := true }

/-! ## Matrix stack lemmas and claims C3, C4, C8 -/

theorem readCur_writeCur (v : M4) (s : MatrixState) : readCur (writeCur v s) = v := by
  cases h : s.currentPtr <;> simp [readCur, writeCur, h]

theorem writeCur_stackCounter (v : M4) (s : MatrixState) :
    (writeCur v s).stackCounter = s.stackCounter := by
  cases h : s.currentPtr <;> simp [writeCur, h]

theorem writeCur_currentPtr (v : M4) (s : MatrixState) :
    (writeCur v s).currentPtr = s.currentPtr := by
  cases h : s.currentPtr <;> simp [writeCur, h]

theorem writeCur_mode (v : M4) (s : MatrixState) :
    (writeCur v s).currentMatrixMode = s.currentMatrixMode := by
  cases h : s.currentPtr <;> simp [writeCur, h]

theorem applyTrs_stackCounter (op : TrsOp) (s : MatrixState) :
    (applyTrs op s).stackCounter = s.stackCounter := by
  cases op <;> simp [applyTrs, rlTranslatef, rlRotatef, rlScalef, writeCur_stackCounter]

theorem applyTrs_currentPtr (op : TrsOp) (s : MatrixState) :
    (applyTrs op s).currentPtr = s.currentPtr := by
  cases op <;> simp [applyTrs, rlTranslatef, rlRotatef, rlScalef, writeCur_currentPtr]

theorem applyTrs_mode (op : TrsOp) (s : MatrixState) :
    (applyTrs op s).currentMatrixMode = s.currentMatrixMode := by
  cases op <;> simp [applyTrs, rlTranslatef, rlRotatef, rlScalef, writeCur_mode]

theorem runTrs_stackCounter (ops : List TrsOp) (s : MatrixState) :
    (runTrs ops s).stackCounter = s.stackCounter := by
  induction ops generalizing s with
  | nil => rfl
  | cons op rest ih => exact (ih (applyTrs op s)).trans (applyTrs_stackCounter op s)

theorem runTrs_currentPtr (ops : List TrsOp) (s : MatrixState) :
    (runTrs ops s).currentPtr = s.currentPtr := by
  induction ops generalizing s with
  | nil => rfl
  | cons op rest ih => exact (ih (applyTrs op s)).trans (applyTrs_currentPtr op s)

theorem runTrs_mode (ops : List TrsOp) (s : MatrixState) :
    (runTrs ops s).currentMatrixMode = s.currentMatrixMode := by
  induction ops generalizing s with
  | nil => rfl
  | cons op rest ih => exact (ih (applyTrs op s)).trans (applyTrs_mode op s)

/-- Push followed by pop restores the value of whichever matrix the
current-matrix pointer designates, for any state with zero stack depth
in modelview mode. -/
theorem push_pop_restores (s : MatrixState) (h0 : s.stackCounter = 0)
    (hp : s.currentPtr = .modelPtr) (hm : s.currentMatrixMode = .modelview) :
    readCur (rlPopMatrix (rlPushMatrix s)) = readCur s := by
  simp [rlPushMatrix, rlPopMatrix, readCur, writeCur, h0, hp, hm]

/-- Claim C8: rlPushMatrix immediately followed by rlPopMatrix leaves
the current matrix numerically identical to its value before the push,
for every state reached by an arbitrary prior sequence of
rlTranslatef/rlRotatef/rlScalef calls (stack depth 0, below the
maximum). -/
theorem push_pop_roundtrip_after_trs (ops : List TrsOp) :
    readCur (rlPopMatrix (rlPushMatrix (runTrs ops initMatrixState))) =
      readCur (runTrs ops initMatrixState) := by
  apply push_pop_restores
  · exact (runTrs_stackCounter ops initMatrixState)
  · exact (runTrs_currentPtr ops initMatrixState)
  · exact (runTrs_mode ops initMatrixState)

/-- Claim C3 (code bug): with a full stack (stackCounter =
RL_MAX_MATRIX_STACK_SIZE) rlPushMatrix in the source logs an error but
falls through: the counter still increments past the fixed capacity
(the C write to stack[RL_MAX_MATRIX_STACK_SIZE] is out of bounds), so
the call is not the no-op the specification requires. -/
theorem push_overflow_not_noop :
    (rlPushMatrix fullStackState).stackCounter = RL_MAX_MATRIX_STACK_SIZE + 1 ∧
    (rlPushMatrix fullStackState).stackCounter ≠ fullStackState.stackCounter := by
  constructor
  · rfl
  · decide

/-- Claim C4: rlTranslatef, rlRotatef and rlScalef replace the current
matrix M by rlMatrixMultiply(T, M) (their operation matrix on the
left), while rlFrustum and rlOrtho replace it by rlMatrixMultiply(M, F)
(their matrix on the right); the last two conjuncts exhibit, on
concrete inputs, that the two sides genuinely differ. -/
theorem transform_multiply_sides :
    (∀ (s : MatrixState) (x y z : ℚ),
      readCur (rlTranslatef x y z s) =
        rlMatrixMultiply (matTranslation x y z) (readCur s)) ∧
    (∀ (s : MatrixState) (x y z sinres cosres invLen : ℚ),
      readCur (rlRotatef x y z sinres cosres invLen s) =
        rlMatrixMultiply (matRotationOf x y z sinres cosres invLen) (readCur s)) ∧
    (∀ (s : MatrixState) (x y z : ℚ),
      readCur (rlScalef x y z s) =
        rlMatrixMultiply (matScale x y z) (readCur s)) ∧
    (∀ (s : MatrixState) (left right bottom top znear zfar : ℚ),
      readCur (rlFrustum left right bottom top znear zfar s) =
        rlMatrixMultiply (readCur s) (matFrustumOf left right bottom top znear zfar)) ∧
    (∀ (s : MatrixState) (left right bottom top znear zfar : ℚ),
      readCur (rlOrtho left right bottom top znear zfar s) =
        rlMatrixMultiply (readCur s) (matOrthoOf left right bottom top znear zfar)) ∧
    (rlMatrixMultiply (matTranslation 1 0 0) (matScale 2 1 1)).m12 = 2 ∧
    (rlMatrixMultiply (matScale 2 1 1) (matTranslation 1 0 0)).m12 = 1 := by
  refine ⟨?_, ?_, ?_, ?_, ?_,
    by norm_num [rlMatrixMultiply, matTranslation, matScale],
    by norm_num [rlMatrixMultiply, matTranslation, matScale]⟩ <;>
    intros <;> simp [rlTranslatef, rlRotatef, rlScalef, rlFrustum, rlOrtho, readCur_writeCur]

/-! ## Batch machine lemmas -/

theorem padTo_zero (m : DrawMode) : padTo m 0 = 0 := by cases m <;> rfl

theorem padTo_le_three (m : DrawMode) (c : ℕ) : padTo m c ≤ 3 := by
  cases m <;> simp only [padTo, arity] <;> omega

theorem padTo_pos (m : DrawMode) (c : ℕ) (h : c % arity m ≠ 0) : 1 ≤ padTo m c := by
  cases m <;> simp only [arity] at h <;> simp only [padTo, arity] <;> omega

theorem arity_ge_two (m : DrawMode) : 2 ≤ arity m := by
  cases m <;> simp [arity]

theorem drawBatch_flushCount (s : BatchState) :
    (rlDrawRenderBatch s).flushCount = s.flushCount + 1 := rfl

theorem check_lt (n : ℕ) (s : BatchState) (h : s.vertexCounter + n < s.elementCount * 4) :
    rlCheckRenderBatchLimit n s = (false, s) := by
  simp [rlCheckRenderBatchLimit, Nat.not_le.mpr h]

theorem check_ge_fst (n : ℕ) (s : BatchState) (h : s.elementCount * 4 ≤ s.vertexCounter + n) :
    (rlCheckRenderBatchLimit n s).1 = true := by
  simp [rlCheckRenderBatchLimit, h]

theorem check_ge_fields (n : ℕ) (s : BatchState)
    (h : s.elementCount * 4 ≤ s.vertexCounter + n) :
    (rlCheckRenderBatchLimit n s).2.vertexCounter = 0 ∧
    (rlCheckRenderBatchLimit n s).2.openDraw.mode = s.openDraw.mode ∧
    (rlCheckRenderBatchLimit n s).2.openDraw.vertexCount = 0 ∧
    (rlCheckRenderBatchLimit n s).2.openDraw.textureId = s.openDraw.textureId ∧
    (rlCheckRenderBatchLimit n s).2.writes = s.writes ∧
    (rlCheckRenderBatchLimit n s).2.elementCount = s.elementCount ∧
    (rlCheckRenderBatchLimit n s).2.flushCount = s.flushCount + 1 ∧
    (rlCheckRenderBatchLimit n s).2.closedDraws = [] ∧
    (rlCheckRenderBatchLimit n s).2.currentDepth = -1 ∧
    (rlCheckRenderBatchLimit n s).2.defaultTextureId = s.defaultTextureId := by
  simp [rlCheckRenderBatchLimit, h, rlDrawRenderBatch]

theorem check_flushCount_le (n : ℕ) (s : BatchState) :
    s.flushCount ≤ (rlCheckRenderBatchLimit n s).2.flushCount := by
  by_cases h : s.elementCount * 4 ≤ s.vertexCounter + n
  · have := (check_ge_fields n s h).2.2.2.2.2.2.1
    omega
  · rw [check_lt n s (by omega)]

theorem check_noflush (n : ℕ) (s : BatchState)
    (h : (rlCheckRenderBatchLimit n s).2.flushCount = s.flushCount) :
    (rlCheckRenderBatchLimit n s).2 = s := by
  by_cases hc : s.elementCount * 4 ≤ s.vertexCounter + n
  · have := (check_ge_fields n s hc).2.2.2.2.2.2.1
    omega
  · rw [check_lt n s (by omega)]

theorem vbc_not_boundary (s : BatchState)
    (h : s.openDraw.vertexCount % arity s.openDraw.mode ≠ 0) :
    vertexBoundaryCheck s = s := by
  unfold vertexBoundaryCheck
  cases hm : s.openDraw.mode <;> simp only [hm, arity] at h <;>
    simp [hm, h]

theorem vbc_guard_false (s : BatchState)
    (h : ¬ ((s.elementCount : ℤ) * 4 - 4 < (s.vertexCounter : ℤ))) :
    vertexBoundaryCheck s = s := by
  simp [vertexBoundaryCheck, h]

theorem vbc_flush (s : BatchState)
    (hg : (s.elementCount : ℤ) * 4 - 4 < (s.vertexCounter : ℤ))
    (hb : s.openDraw.vertexCount % arity s.openDraw.mode = 0) :
    vertexBoundaryCheck s = (rlCheckRenderBatchLimit (arity s.openDraw.mode + 1) s).2 := by
  unfold vertexBoundaryCheck
  cases hm : s.openDraw.mode <;> simp only [hm, arity] at hb ⊢ <;>
    simp [hg, hm, hb]

theorem rlVertex3f_fields (x y z : ℚ) (s : BatchState) :
    (rlVertex3f x y z s).elementCount = (vertexBoundaryCheck s).elementCount ∧
    (rlVertex3f x y z s).vertexCounter = (vertexBoundaryCheck s).vertexCounter + 1 ∧
    (rlVertex3f x y z s).openDraw.mode = (vertexBoundaryCheck s).openDraw.mode ∧
    (rlVertex3f x y z s).openDraw.vertexCount =
      (vertexBoundaryCheck s).openDraw.vertexCount + 1 ∧
    ∃ w, (rlVertex3f x y z s).writes = (vertexBoundaryCheck s).writes ++ [w] ∧
      w.index = (vertexBoundaryCheck s).vertexCounter := by
  exact ⟨rfl, rfl, rfl, rfl, ⟨_, rfl, rfl⟩⟩

theorem rlVertex3f_carried (x y z : ℚ) (s : BatchState) :
    (rlVertex3f x y z s).flushCount = (vertexBoundaryCheck s).flushCount ∧
    (rlVertex3f x y z s).closedDraws = (vertexBoundaryCheck s).closedDraws ∧
    (rlVertex3f x y z s).openDraw.textureId = (vertexBoundaryCheck s).openDraw.textureId ∧
    (rlVertex3f x y z s).submittedVertices = (vertexBoundaryCheck s).submittedVertices ∧
    (rlVertex3f x y z s).gpuSubmissions = (vertexBoundaryCheck s).gpuSubmissions := by
  exact ⟨rfl, rfl, rfl, rfl, rfl⟩

theorem vertex_flushes_at_capacity (x y z : ℚ) (s : BatchState)
    (hv : s.elementCount * 4 ≤ s.vertexCounter)
    (hb : s.openDraw.vertexCount % arity s.openDraw.mode = 0) :
    (rlVertex3f x y z s).flushCount = s.flushCount + 1 := by
  have hg : (s.elementCount : ℤ) * 4 - 4 < (s.vertexCounter : ℤ) := by omega
  have hge : s.elementCount * 4 ≤ s.vertexCounter + (arity s.openDraw.mode + 1) := by omega
  have hfc := (rlVertex3f_carried x y z s).1
  rw [vbc_flush s hg hb] at hfc
  rw [hfc]
  exact (check_ge_fields (arity s.openDraw.mode + 1) s hge).2.2.2.2.2.2.1

theorem vertex_flush_only_at_boundary (x y z : ℚ) (s : BatchState)
    (h : s.flushCount < (rlVertex3f x y z s).flushCount) :
    s.openDraw.vertexCount % arity s.openDraw.mode = 0 := by
  by_contra hb
  have hfc := (rlVertex3f_carried x y z s).1
  rw [vbc_not_boundary s hb] at hfc
  omega

/-! ## The batch invariant is preserved by every call -/

theorem inv_drawBatch (cap : ℕ) (s : BatchState) (h : BatchInv cap s) :
    BatchInv cap (rlDrawRenderBatch s) := by
  obtain ⟨he, hp, hw⟩ := h
  refine ⟨he, ?_, ?_⟩
  · simp [rlDrawRenderBatch, padTo_zero]
  · simpa [rlDrawRenderBatch] using hw

theorem inv_check (cap n : ℕ) (s : BatchState) (h : BatchInv cap s) :
    BatchInv cap ((rlCheckRenderBatchLimit n s).2) := by
  obtain ⟨he, hp, hw⟩ := h
  by_cases hc : s.elementCount * 4 ≤ s.vertexCounter + n
  · obtain ⟨t0, tm, tc, ttex, tw, tec, tfc, tcd, tdep, tdt⟩ := check_ge_fields n s hc
    refine ⟨by rw [tec, he], ?_, ?_⟩
    · rw [t0, tc, padTo_zero]
      omega
    · rw [tw]
      exact hw
  · rw [check_lt n s (by omega)]
    exact ⟨he, hp, hw⟩

theorem inv_close_aux (cap a : ℕ) (t : BatchState) (h : BatchInv cap t) :
    BatchInv cap
      (if (rlCheckRenderBatchLimit a t).1 then (rlCheckRenderBatchLimit a t).2
       else
         { (rlCheckRenderBatchLimit a t).2 with
           vertexCounter := (rlCheckRenderBatchLimit a t).2.vertexCounter + a
           closedDraws := (rlCheckRenderBatchLimit a t).2.closedDraws ++
             [(rlCheckRenderBatchLimit a t).2.openDraw]
           openDraw :=
             { mode := .quads, vertexCount := 0, vertexAlignment := 0
               textureId := (rlCheckRenderBatchLimit a t).2.defaultTextureId } }) := by
  obtain ⟨he, hp, hw⟩ := h
  by_cases hc : t.elementCount * 4 ≤ t.vertexCounter + a
  · rw [check_ge_fst a t hc]
    simp only [if_true]
    exact inv_check cap a t ⟨he, hp, hw⟩
  · rw [check_lt a t (by omega)]
    simp only [Bool.false_eq_true, if_false]
    refine ⟨he, ?_, hw⟩
    simp only [padTo_zero]
    omega

theorem inv_close (cap : ℕ) (s : BatchState) (h : BatchInv cap s) :
    BatchInv cap (closeDrawCall s) := by
  obtain ⟨he, hp, hw⟩ := h
  exact inv_close_aux cap (closeAlignment s.openDraw.mode s.openDraw.vertexCount)
    { s with openDraw := { s.openDraw with
        vertexAlignment := closeAlignment s.openDraw.mode s.openDraw.vertexCount } }
    ⟨he, hp, hw⟩

theorem inv_begin (cap : ℕ) (mode : DrawMode) (s : BatchState) (h : BatchInv cap s) :
    BatchInv cap (rlBegin mode s) := by
  unfold rlBegin
  by_cases hm : s.openDraw.mode ≠ mode
  · simp only [if_pos hm]
    have h1 : BatchInv cap (if 0 < s.openDraw.vertexCount then closeDrawCall s else s) := by
      split_ifs
      · exact inv_close cap s h
      · exact h
    set s1 := if 0 < s.openDraw.vertexCount then closeDrawCall s else s with hs1
    have h2 : BatchInv cap
        (if RL_DEFAULT_BATCH_DRAWCALLS ≤ drawCounter s1 then rlDrawRenderBatch s1 else s1) := by
      split_ifs
      · exact inv_drawBatch cap s1 h1
      · exact h1
    set s2 := if RL_DEFAULT_BATCH_DRAWCALLS ≤ drawCounter s1 then rlDrawRenderBatch s1 else s1
    obtain ⟨he2, hp2, hw2⟩ := h2
    refine ⟨he2, ?_, hw2⟩
    simp only [padTo_zero]
    have := padTo_le_three s2.openDraw.mode s2.openDraw.vertexCount
    omega
  · simp only [if_neg hm]
    exact h

theorem inv_setTexture (cap id : ℕ) (s : BatchState) (h : BatchInv cap s) :
    BatchInv cap (rlSetTexture id s) := by
  unfold rlSetTexture
  by_cases h0 : id = 0
  · simp only [if_pos h0]
    split_ifs
    · exact inv_drawBatch cap s h
    · exact h
  · simp only [if_neg h0]
    by_cases ht : s.openDraw.textureId ≠ id
    · simp only [if_pos ht]
      have h1 : BatchInv cap (if 0 < s.openDraw.vertexCount then closeDrawCall s else s) := by
        split_ifs
        · exact inv_close cap s h
        · exact h
      set s1 := if 0 < s.openDraw.vertexCount then closeDrawCall s else s with hs1
      have h2 : BatchInv cap
          (if RL_DEFAULT_BATCH_DRAWCALLS ≤ drawCounter s1 then rlDrawRenderBatch s1 else s1) := by
        split_ifs
        · exact inv_drawBatch cap s1 h1
        · exact h1
      set s2 := if RL_DEFAULT_BATCH_DRAWCALLS ≤ drawCounter s1 then rlDrawRenderBatch s1 else s1
      obtain ⟨he2, hp2, hw2⟩ := h2
      refine ⟨he2, ?_, hw2⟩
      simp only [padTo_zero]
      have := padTo_le_three s2.openDraw.mode s2.openDraw.vertexCount
      omega
    · simp only [if_neg ht]
      exact h

theorem inv_setShader (cap id locs : ℕ) (s : BatchState) (h : BatchInv cap s) :
    BatchInv cap (rlSetShader id locs s) := by
  unfold rlSetShader
  split_ifs
  · obtain ⟨he, hp, hw⟩ := inv_drawBatch cap s h
    exact ⟨he, hp, hw⟩
  · exact h

theorem inv_vertex (cap : ℕ) (hcap : 1 ≤ cap) (x y z : ℚ) (s : BatchState)
    (h : BatchInv cap s) : BatchInv cap (rlVertex3f x y z s) := by
  obtain ⟨he, hp, hw⟩ := h
  obtain ⟨hfe, hfv, hfm, hfc, w, hfw, hfi⟩ := rlVertex3f_fields x y z s
  by_cases hb : s.openDraw.vertexCount % arity s.openDraw.mode = 0
  · by_cases hg : (s.elementCount : ℤ) * 4 - 4 < (s.vertexCounter : ℤ)
    · -- at a primitive boundary with the guard up: the check flushes
      have ha2 := arity_ge_two s.openDraw.mode
      have hge : s.elementCount * 4 ≤ s.vertexCounter + (arity s.openDraw.mode + 1) := by
        omega
      have hv := vbc_flush s hg hb
      obtain ⟨t0, tm, tc, ttex, tw, tec, tfc, tcd, tdep, tdt⟩ :=
        check_ge_fields (arity s.openDraw.mode + 1) s hge
      rw [hv] at hfe hfv hfm hfc hfw hfi
      refine ⟨by rw [hfe, tec, he], ?_, ?_⟩
      · rw [hfv, t0, hfm, tm, hfc, tc]
        have := padTo_le_three s.openDraw.mode (0 + 1)
        omega
      · rw [hfw, tw]
        intro w' hw'
        rcases List.mem_append.mp hw' with hmem | hmem
        · exact hw w' hmem
        · simp only [List.mem_singleton] at hmem
          subst hmem
          rw [hfi, t0]
          omega
    · -- guard down: no flush, and the cursor has at least 4 slots of room
      have hv := vbc_guard_false s hg
      rw [hv] at hfe hfv hfm hfc hfw hfi
      have hroom : s.vertexCounter + 4 ≤ cap * 4 := by
        rw [he] at hg
        omega
      refine ⟨by rw [hfe, he], ?_, ?_⟩
      · rw [hfv, hfm, hfc]
        have := padTo_le_three s.openDraw.mode (s.openDraw.vertexCount + 1)
        omega
      · rw [hfw]
        intro w' hw'
        rcases List.mem_append.mp hw' with hmem | hmem
        · exact hw w' hmem
        · simp only [List.mem_singleton] at hmem
          subst hmem
          rw [hfi]
          omega
  · -- mid-primitive: no flush, and the invariant leaves room to finish
    have hv := vbc_not_boundary s hb
    rw [hv] at hfe hfv hfm hfc hfw hfi
    have hpos := padTo_pos s.openDraw.mode s.openDraw.vertexCount hb
    have hkey : s.vertexCounter + 1 +
        padTo s.openDraw.mode (s.openDraw.vertexCount + 1) ≤ cap * 4 := by
      cases hm : s.openDraw.mode <;>
        rw [hm] at hp hb <;>
        simp only [padTo, arity] at hp hb hpos ⊢ <;>
        omega
    refine ⟨by rw [hfe, he], ?_, ?_⟩
    · rw [hfv, hfm, hfc]
      exact hkey
    · rw [hfw]
      intro w' hw'
      rcases List.mem_append.mp hw' with hmem | hmem
      · exact hw w' hmem
      · simp only [List.mem_singleton] at hmem
        subst hmem
        rw [hfi]
        omega

theorem inv_applyOp (cap : ℕ) (hcap : 1 ≤ cap) (op : Op) (s : BatchState)
    (h : BatchInv cap s) : BatchInv cap (applyOp op s) := by
  cases op with
  | beginMode mode => exact inv_begin cap mode s h
  | vertex x y z => exact inv_vertex cap hcap x y z s h
  | endMode => exact ⟨h.1, h.2.1, h.2.2⟩
  | texCoord x y => exact ⟨h.1, h.2.1, h.2.2⟩
  | color r g b a => exact ⟨h.1, h.2.1, h.2.2⟩
  | setTexture id => exact inv_setTexture cap id s h
  | setShader id locs => exact inv_setShader cap id locs s h
  | drawBatch => exact inv_drawBatch cap s h
  | checkLimit n => exact inv_check cap n s h

theorem inv_runOps (cap : ℕ) (hcap : 1 ≤ cap) (ops : List Op) (s : BatchState)
    (h : BatchInv cap s) : BatchInv cap (runOps ops s) := by
  induction ops generalizing s with
  | nil => exact h
  | cons op rest ih => exact ih (applyOp op s) (inv_applyOp cap hcap op s h)

theorem inv_initBatch (cap nbuf defTex shaderId : ℕ) :
    BatchInv cap (initBatch cap nbuf defTex shaderId) := by
  refine ⟨rfl, ?_, ?_⟩
  · simp [initBatch, padTo_zero]
  · intro w hw
    simp [initBatch] at hw

/-! ## Claim C1 -/

/-- Claim C1: along every call sequence on the active batch, (a) no
rlVertex3f call ever writes attribute data at an index at or beyond
elementCount*4; (b) whenever writing the next vertex would exceed the
buffer capacity and the open draw call's vertexCount sits at a
primitive boundary (multiple of 2 for LINES, 3 for TRIANGLES, 4 for
QUADS), a flush occurs inside rlVertex3f before that vertex is written;
(c) a flush triggered inside rlVertex3f happens only at a primitive
boundary, so a primitive's vertices are never split across two
flushes. -/
theorem vertex_write_safety (cap nbuf defTex shaderId : ℕ) (hcap : 1 ≤ cap)
    (ops : List Op) (x y z : ℚ) :
    (∀ w ∈ (rlVertex3f x y z (runOps ops (initBatch cap nbuf defTex shaderId))).writes,
        w.index < cap * 4) ∧
    (cap * 4 ≤ (runOps ops (initBatch cap nbuf defTex shaderId)).vertexCounter →
      (runOps ops (initBatch cap nbuf defTex shaderId)).openDraw.vertexCount %
          arity (runOps ops (initBatch cap nbuf defTex shaderId)).openDraw.mode = 0 →
      (rlVertex3f x y z (runOps ops (initBatch cap nbuf defTex shaderId))).flushCount =
        (runOps ops (initBatch cap nbuf defTex shaderId)).flushCount + 1) ∧
    ((runOps ops (initBatch cap nbuf defTex shaderId)).flushCount <
        (rlVertex3f x y z (runOps ops (initBatch cap nbuf defTex shaderId))).flushCount →
      (runOps ops (initBatch cap nbuf defTex shaderId)).openDraw.vertexCount %
          arity (runOps ops (initBatch cap nbuf defTex shaderId)).openDraw.mode = 0) := by
  have hinv := inv_runOps cap hcap ops (initBatch cap nbuf defTex shaderId)
    (inv_initBatch cap nbuf defTex shaderId)
  refine ⟨?_, ?_, ?_⟩
  · exact (inv_vertex cap hcap x y z _ hinv).2.2
  · intro hv hb
    exact vertex_flushes_at_capacity x y z _ (by rw [hinv.1]; exact hv) hb
  · exact vertex_flush_only_at_boundary x y z _

/-- Witness for claim C1 at capacity 1 after four QUADS vertices: the
hypotheses hold concretely (the buffer is exactly full at a quad
boundary) and the fifth vertex forces the flush. -/
theorem vertex_write_safety_witness :
    (1 ≤ 1 ∧
      1 * 4 ≤ (runOps (List.replicate 4 (Op.vertex 0 0 0)) (initBatch 1 1 7 3)).vertexCounter ∧
      (runOps (List.replicate 4 (Op.vertex 0 0 0)) (initBatch 1 1 7 3)).openDraw.vertexCount %
        arity (runOps (List.replicate 4 (Op.vertex 0 0 0)) (initBatch 1 1 7 3)).openDraw.mode
        = 0) ∧
    ((∀ w ∈ (rlVertex3f 0 0 0
          (runOps (List.replicate 4 (Op.vertex 0 0 0)) (initBatch 1 1 7 3))).writes,
        w.index < 1 * 4) ∧
      (rlVertex3f 0 0 0
          (runOps (List.replicate 4 (Op.vertex 0 0 0)) (initBatch 1 1 7 3))).flushCount =
        (runOps (List.replicate 4 (Op.vertex 0 0 0)) (initBatch 1 1 7 3)).flushCount + 1) := by
  have h := vertex_write_safety 1 1 7 3 (by decide)
    (List.replicate 4 (Op.vertex 0 0 0)) 0 0 0
  exact ⟨⟨by decide, by decide, by decide⟩, h.1, h.2.1 (by decide) (by decide)⟩

/-! ## Claims C10, C7, C9 -/

/-- Claim C10: when rlCheckRenderBatchLimit(n) triggers a flush (returns
true), the primitive mode and textureId of the open draw call before
the flush are restored onto the reset ledger's single open draw call,
while the rest of the flushed state takes its reset values: vertex
cursor 0, drawCounter 1 (no closed calls), vertexCount 0, depth back at
the -1.0 baseline. -/
theorem check_limit_restores_mode_texture (n : ℕ) (s : BatchState)
    (h : s.elementCount * 4 ≤ s.vertexCounter + n) :
    (rlCheckRenderBatchLimit n s).1 = true ∧
    (rlCheckRenderBatchLimit n s).2.openDraw.mode = s.openDraw.mode ∧
    (rlCheckRenderBatchLimit n s).2.openDraw.textureId = s.openDraw.textureId ∧
    (rlCheckRenderBatchLimit n s).2.openDraw.vertexCount = 0 ∧
    (rlCheckRenderBatchLimit n s).2.closedDraws = [] ∧
    drawCounter (rlCheckRenderBatchLimit n s).2 = 1 ∧
    (rlCheckRenderBatchLimit n s).2.vertexCounter = 0 ∧
    (rlCheckRenderBatchLimit n s).2.currentDepth = -1 ∧
    (rlCheckRenderBatchLimit n s).2.flushCount = s.flushCount + 1 := by
  obtain ⟨t0, tm, tc, ttex, tw, tec, tfc, tcd, tdep, tdt⟩ := check_ge_fields n s h
  exact ⟨check_ge_fst n s h, tm, ttex, tc, tcd, by simp [drawCounter, tcd], t0, tdep, tfc⟩

/-- Witness for claim C10: a concrete full batch (capacity 1, four
vertices of a LINES call under texture 9) whose limit check flushes and
restores mode LINES and texture 9 onto the fresh open call. -/
theorem check_limit_restores_witness :
    ((runOps [Op.beginMode .lines, Op.setTexture 9, Op.vertex 0 0 0, Op.vertex 0 0 0,
        Op.vertex 0 0 0, Op.vertex 0 0 0] (initBatch 1 1 7 3)).elementCount * 4 ≤
      (runOps [Op.beginMode .lines, Op.setTexture 9, Op.vertex 0 0 0, Op.vertex 0 0 0,
        Op.vertex 0 0 0, Op.vertex 0 0 0] (initBatch 1 1 7 3)).vertexCounter + 2) ∧
    ((rlCheckRenderBatchLimit 2 (runOps [Op.beginMode .lines, Op.setTexture 9,
        Op.vertex 0 0 0, Op.vertex 0 0 0, Op.vertex 0 0 0, Op.vertex 0 0 0]
        (initBatch 1 1 7 3))).2.openDraw.mode = DrawMode.lines ∧
      (rlCheckRenderBatchLimit 2 (runOps [Op.beginMode .lines, Op.setTexture 9,
        Op.vertex 0 0 0, Op.vertex 0 0 0, Op.vertex 0 0 0, Op.vertex 0 0 0]
        (initBatch 1 1 7 3))).2.openDraw.textureId = 9 ∧
      (rlCheckRenderBatchLimit 2 (runOps [Op.beginMode .lines, Op.setTexture 9,
        Op.vertex 0 0 0, Op.vertex 0 0 0, Op.vertex 0 0 0, Op.vertex 0 0 0]
        (initBatch 1 1 7 3))).2.vertexCounter = 0) := by
  have h := check_limit_restores_mode_texture 2
    (runOps [Op.beginMode .lines, Op.setTexture 9, Op.vertex 0 0 0, Op.vertex 0 0 0,
      Op.vertex 0 0 0, Op.vertex 0 0 0] (initBatch 1 1 7 3)) (by decide)
  refine ⟨by decide, ?_, ?_, h.2.2.2.2.2.2.1⟩
  · rw [h.2.1]
    decide
  · rw [h.2.2.1]
    decide

/-- Claim C7: rlDrawRenderBatch with vertex cursor 0 skips the GPU
upload and draw submission but still resets the bookkeeping; in all
cases the call leaves the cursor at 0, the depth at its -1.0 baseline,
the ledger cleared back to one open RL_QUADS call with vertexCount 0
bound to the default texture (drawCounter 1), and currentBuffer
advanced to the next slot modulo bufferCount. -/
theorem draw_batch_reset (s : BatchState) (h : s.currentBuffer < s.bufferCount) :
    (s.vertexCounter = 0 →
      (rlDrawRenderBatch s).gpuSubmissions = s.gpuSubmissions ∧
      (rlDrawRenderBatch s).submittedVertices = s.submittedVertices) ∧
    (rlDrawRenderBatch s).vertexCounter = 0 ∧
    (rlDrawRenderBatch s).currentDepth = -1 ∧
    (rlDrawRenderBatch s).closedDraws = [] ∧
    drawCounter (rlDrawRenderBatch s) = 1 ∧
    (rlDrawRenderBatch s).openDraw.mode = DrawMode.quads ∧
    (rlDrawRenderBatch s).openDraw.vertexCount = 0 ∧
    (rlDrawRenderBatch s).openDraw.textureId = s.defaultTextureId ∧
    (rlDrawRenderBatch s).currentBuffer = (s.currentBuffer + 1) % s.bufferCount := by
  refine ⟨?_, rfl, rfl, rfl, rfl, rfl, rfl, rfl, ?_⟩
  · intro h0
    simp [rlDrawRenderBatch, h0]
  · show (if s.bufferCount ≤ s.currentBuffer + 1 then 0 else s.currentBuffer + 1) =
      (s.currentBuffer + 1) % s.bufferCount
    rcases Nat.lt_or_ge (s.currentBuffer + 1) s.bufferCount with hlt | hge
    · rw [if_neg (by omega), Nat.mod_eq_of_lt hlt]
    · have hb : s.currentBuffer + 1 = s.bufferCount := by omega
      rw [if_pos (by omega), hb, Nat.mod_self]

/-- Witness for claim C7: a concrete empty-cursor state (fresh batch
with two buffers): submission counters are untouched while the
bookkeeping resets and the buffer index advances. -/
theorem draw_batch_reset_witness :
    (initBatch 8 2 7 3).currentBuffer < (initBatch 8 2 7 3).bufferCount ∧
    ((rlDrawRenderBatch (initBatch 8 2 7 3)).gpuSubmissions =
        (initBatch 8 2 7 3).gpuSubmissions ∧
      (rlDrawRenderBatch (initBatch 8 2 7 3)).vertexCounter = 0 ∧
      (rlDrawRenderBatch (initBatch 8 2 7 3)).currentBuffer =
        ((initBatch 8 2 7 3).currentBuffer + 1) % (initBatch 8 2 7 3).bufferCount) := by
  have h := draw_batch_reset (initBatch 8 2 7 3) (by decide)
  exact ⟨by decide, (h.1 (by decide)).1, h.2.1, h.2.2.2.2.2.2.2.2⟩

/-- Claim C9: rlSetShader with an id different from the current shader
flushes the pending batch (rlDrawRenderBatch runs, submitting pending
work when there is any) before swapping in the new id and locations;
and for two sequential rlSetShader calls before any vertex is emitted
(cursor 0), no GPU submission occurs and the active shader ends up
being the second id. -/
theorem set_shader_flush_swap (s : BatchState) (id locs id1 locs1 id2 locs2 : ℕ) :
    (s.currentShaderId ≠ id →
      (rlSetShader id locs s).flushCount = s.flushCount + 1 ∧
      (0 < s.vertexCounter →
        (rlSetShader id locs s).gpuSubmissions = s.gpuSubmissions + 1) ∧
      (rlSetShader id locs s).currentShaderId = id ∧
      (rlSetShader id locs s).currentShaderLocs = locs) ∧
    (s.vertexCounter = 0 →
      (rlSetShader id2 locs2 (rlSetShader id1 locs1 s)).gpuSubmissions =
        s.gpuSubmissions ∧
      (rlSetShader id2 locs2 (rlSetShader id1 locs1 s)).submittedVertices =
        s.submittedVertices ∧
      (rlSetShader id2 locs2 (rlSetShader id1 locs1 s)).currentShaderId = id2) := by
  constructor
  · intro hne
    refine ⟨?_, ?_, ?_, ?_⟩
    · simp [rlSetShader, hne, rlDrawRenderBatch]
    · intro h0
      simp [rlSetShader, hne, rlDrawRenderBatch, h0]
    · simp [rlSetShader, hne]
    · simp [rlSetShader, hne]
  · intro h0
    by_cases h1 : s.currentShaderId ≠ id1 <;>
      by_cases h2 : (rlSetShader id1 locs1 s).currentShaderId ≠ id2 <;>
      simp_all [rlSetShader, rlDrawRenderBatch]

/-- Witness for claim C9: from a fresh batch with shader 3, setting
shader 4 then 5 performs no GPU submission and leaves shader 5 active,
while the first switch did run the flush path. -/
theorem set_shader_flush_swap_witness :
    ((initBatch 8 1 7 3).currentShaderId ≠ 4 ∧ (initBatch 8 1 7 3).vertexCounter = 0) ∧
    ((rlSetShader 4 11 (initBatch 8 1 7 3)).flushCount =
        (initBatch 8 1 7 3).flushCount + 1 ∧
      (rlSetShader 5 12 (rlSetShader 4 11 (initBatch 8 1 7 3))).gpuSubmissions =
        (initBatch 8 1 7 3).gpuSubmissions ∧
      (rlSetShader 5 12 (rlSetShader 4 11 (initBatch 8 1 7 3))).currentShaderId = 5) := by
  have h := set_shader_flush_swap (initBatch 8 1 7 3) 4 11 4 11 5 12
  exact ⟨⟨by decide, by decide⟩, (h.1 (by decide)).1, (h.2 (by decide)).1,
    (h.2 (by decide)).2.2⟩

/-! ## Closing a draw call: field lemmas and claim C2 -/

theorem close_noflush_fields (s : BatchState)
    (h : s.vertexCounter + closeAlignment s.openDraw.mode s.openDraw.vertexCount <
      s.elementCount * 4) :
    (closeDrawCall s).vertexCounter =
      s.vertexCounter + closeAlignment s.openDraw.mode s.openDraw.vertexCount ∧
    (closeDrawCall s).closedDraws = s.closedDraws ++
      [{ s.openDraw with
         vertexAlignment := closeAlignment s.openDraw.mode s.openDraw.vertexCount }] ∧
    (closeDrawCall s).openDraw =
      { mode := .quads, vertexCount := 0, vertexAlignment := 0
        textureId := s.defaultTextureId } ∧
    (closeDrawCall s).flushCount = s.flushCount ∧
    (closeDrawCall s).defaultTextureId = s.defaultTextureId ∧
    (closeDrawCall s).elementCount = s.elementCount := by
  simp only [closeDrawCall]
  rw [check_lt (closeAlignment s.openDraw.mode s.openDraw.vertexCount)
      { s with openDraw := { s.openDraw with
          vertexAlignment := closeAlignment s.openDraw.mode s.openDraw.vertexCount } } h]
  exact ⟨rfl, rfl, rfl, rfl, rfl, rfl⟩

theorem close_flush_fields (s : BatchState)
    (h : s.elementCount * 4 ≤
      s.vertexCounter + closeAlignment s.openDraw.mode s.openDraw.vertexCount) :
    (closeDrawCall s).vertexCounter = 0 ∧
    (closeDrawCall s).closedDraws = [] ∧
    (closeDrawCall s).openDraw.mode = s.openDraw.mode ∧
    (closeDrawCall s).openDraw.vertexCount = 0 ∧
    (closeDrawCall s).openDraw.textureId = s.openDraw.textureId ∧
    (closeDrawCall s).flushCount = s.flushCount + 1 ∧
    (closeDrawCall s).elementCount = s.elementCount := by
  simp only [closeDrawCall]
  rw [check_ge_fst (closeAlignment s.openDraw.mode s.openDraw.vertexCount)
      { s with openDraw := { s.openDraw with
          vertexAlignment := closeAlignment s.openDraw.mode s.openDraw.vertexCount } } h]
  simp only [if_true]
  obtain ⟨t0, tm, tc, ttex, tw, tec, tfc, tcd, tdep, tdt⟩ :=
    check_ge_fields (closeAlignment s.openDraw.mode s.openDraw.vertexCount)
      { s with openDraw := { s.openDraw with
          vertexAlignment := closeAlignment s.openDraw.mode s.openDraw.vertexCount } } h
  exact ⟨t0, tcd, tm, tc, ttex, tfc, tec⟩

theorem closeAlignment_formula (m : DrawMode) (c : ℕ) :
    closeAlignment m c =
      if m = DrawMode.quads then 0
      else if m = DrawMode.lines then (if c < 4 then c else c % 4)
      else (if c < 4 then 1 else 4 - c % 4) := by
  cases m <;> simp [closeAlignment]

theorem close_stage_fields (s : BatchState) :
    ((if RL_DEFAULT_BATCH_DRAWCALLS ≤ drawCounter (closeDrawCall s)
        then rlDrawRenderBatch (closeDrawCall s) else closeDrawCall s).flushCount =
          s.flushCount →
      (if RL_DEFAULT_BATCH_DRAWCALLS ≤ drawCounter (closeDrawCall s)
        then rlDrawRenderBatch (closeDrawCall s) else closeDrawCall s).closedDraws.getLast? =
        some { s.openDraw with
          vertexAlignment := closeAlignment s.openDraw.mode s.openDraw.vertexCount }) ∧
    (0 < s.openDraw.vertexCount →
      arity s.openDraw.mode ∣ s.openDraw.vertexCount →
      s.openDraw.vertexCount ≤ s.vertexCounter →
      (s.vertexCounter - s.openDraw.vertexCount) % 4 = 0 →
      4 ∣ (if RL_DEFAULT_BATCH_DRAWCALLS ≤ drawCounter (closeDrawCall s)
        then rlDrawRenderBatch (closeDrawCall s) else closeDrawCall s).vertexCounter) := by
  by_cases hov : s.elementCount * 4 ≤
      s.vertexCounter + closeAlignment s.openDraw.mode s.openDraw.vertexCount
  · obtain ⟨t0, tcd, tm, tc, ttex, tfc, tec⟩ := close_flush_fields s hov
    have hdc : ¬ (RL_DEFAULT_BATCH_DRAWCALLS ≤ drawCounter (closeDrawCall s)) := by
      rw [drawCounter, tcd]
      simp [RL_DEFAULT_BATCH_DRAWCALLS]
    rw [if_neg hdc]
    constructor
    · intro hfc
      rw [tfc] at hfc
      omega
    · intro _ _ _ _
      rw [t0]
      exact Dvd.intro 0 rfl
  · obtain ⟨t0, tcd, tod, tfc, tdt, tec⟩ := close_noflush_fields s (by omega)
    by_cases hdc : RL_DEFAULT_BATCH_DRAWCALLS ≤ drawCounter (closeDrawCall s)
    · rw [if_pos hdc]
      constructor
      · intro hfc
        rw [drawBatch_flushCount, tfc] at hfc
        omega
      · intro _ _ _ _
        simp [rlDrawRenderBatch]
    · rw [if_neg hdc]
      constructor
      · intro _
        rw [tcd, List.getLast?_concat]
      · intro hc hdvd hstart halign
        rw [t0]
        rcases hdvd with ⟨k, hk⟩
        cases hm : s.openDraw.mode <;>
          rw [hm] at hk <;>
          simp only [arity] at hk <;>
          by_cases hc4 : s.openDraw.vertexCount < 4 <;>
          simp only [closeAlignment, hm, hc4, if_true, if_false] <;>
          omega

theorem begin_projections (s : BatchState) (mode : DrawMode)
    (hmode : s.openDraw.mode ≠ mode) (hc : 0 < s.openDraw.vertexCount) :
    (rlBegin mode s).closedDraws =
      (if RL_DEFAULT_BATCH_DRAWCALLS ≤ drawCounter (closeDrawCall s)
        then rlDrawRenderBatch (closeDrawCall s) else closeDrawCall s).closedDraws ∧
    (rlBegin mode s).vertexCounter =
      (if RL_DEFAULT_BATCH_DRAWCALLS ≤ drawCounter (closeDrawCall s)
        then rlDrawRenderBatch (closeDrawCall s) else closeDrawCall s).vertexCounter ∧
    (rlBegin mode s).flushCount =
      (if RL_DEFAULT_BATCH_DRAWCALLS ≤ drawCounter (closeDrawCall s)
        then rlDrawRenderBatch (closeDrawCall s) else closeDrawCall s).flushCount := by
  unfold rlBegin
  rw [if_pos hmode, if_pos hc]
  exact ⟨rfl, rfl, rfl⟩

theorem setTexture_projections (s : BatchState) (id : ℕ)
    (hid : id ≠ 0) (hne : s.openDraw.textureId ≠ id) (hc : 0 < s.openDraw.vertexCount) :
    (rlSetTexture id s).closedDraws =
      (if RL_DEFAULT_BATCH_DRAWCALLS ≤ drawCounter (closeDrawCall s)
        then rlDrawRenderBatch (closeDrawCall s) else closeDrawCall s).closedDraws ∧
    (rlSetTexture id s).vertexCounter =
      (if RL_DEFAULT_BATCH_DRAWCALLS ≤ drawCounter (closeDrawCall s)
        then rlDrawRenderBatch (closeDrawCall s) else closeDrawCall s).vertexCounter ∧
    (rlSetTexture id s).flushCount =
      (if RL_DEFAULT_BATCH_DRAWCALLS ≤ drawCounter (closeDrawCall s)
        then rlDrawRenderBatch (closeDrawCall s) else closeDrawCall s).flushCount := by
  unfold rlSetTexture
  rw [if_neg hid, if_pos hne, if_pos hc]
  exact ⟨rfl, rfl, rfl⟩

/-- Claim C2 (amended): for every rlBegin(mode) with a mode different
from the open call's, and for every rlSetTexture(id) with id nonzero
and different from the open call's texture, a call closed with
vertexCount > 0 records vertexAlignment computed exactly as: 0 for
QUADS; for LINES, vertexCount if vertexCount < 4 else vertexCount % 4;
for TRIANGLES, 1 if vertexCount < 4 else 4 - vertexCount % 4 — stated
for the no-flush path, where the closed entry survives in the ledger,
with no assumption on vertexCount beyond being positive.  The
consequence that the next draw call starts at a vertex offset that is
a multiple of 4 holds provided the closed call held a whole number of
primitives and itself started at a multiple of 4 (the flush paths
restart at offset 0); without that proviso it fails, see the
counterexample. -/
theorem close_alignment_on_switch (s : BatchState) (mode : DrawMode) (id : ℕ) :
    (s.openDraw.mode ≠ mode → 0 < s.openDraw.vertexCount →
      ((rlBegin mode s).flushCount = s.flushCount →
        (rlBegin mode s).closedDraws.getLast? = some
          { s.openDraw with vertexAlignment :=
              if s.openDraw.mode = DrawMode.quads then 0
              else if s.openDraw.mode = DrawMode.lines then
                (if s.openDraw.vertexCount < 4 then s.openDraw.vertexCount
                 else s.openDraw.vertexCount % 4)
              else
                (if s.openDraw.vertexCount < 4 then 1
                 else 4 - s.openDraw.vertexCount % 4) }) ∧
      (arity s.openDraw.mode ∣ s.openDraw.vertexCount →
        s.openDraw.vertexCount ≤ s.vertexCounter →
        (s.vertexCounter - s.openDraw.vertexCount) % 4 = 0 →
        4 ∣ (rlBegin mode s).vertexCounter)) ∧
    (id ≠ 0 → s.openDraw.textureId ≠ id → 0 < s.openDraw.vertexCount →
      ((rlSetTexture id s).flushCount = s.flushCount →
        (rlSetTexture id s).closedDraws.getLast? = some
          { s.openDraw with vertexAlignment :=
              if s.openDraw.mode = DrawMode.quads then 0
              else if s.openDraw.mode = DrawMode.lines then
                (if s.openDraw.vertexCount < 4 then s.openDraw.vertexCount
                 else s.openDraw.vertexCount % 4)
              else
                (if s.openDraw.vertexCount < 4 then 1
                 else 4 - s.openDraw.vertexCount % 4) }) ∧
      (arity s.openDraw.mode ∣ s.openDraw.vertexCount →
        s.openDraw.vertexCount ≤ s.vertexCounter →
        (s.vertexCounter - s.openDraw.vertexCount) % 4 = 0 →
        4 ∣ (rlSetTexture id s).vertexCounter)) := by
  obtain ⟨p1, p2⟩ := close_stage_fields s
  constructor
  · intro hmode hc
    obtain ⟨e1, e2, e3⟩ := begin_projections s mode hmode hc
    constructor
    · intro hfc
      rw [e1, ← closeAlignment_formula]
      exact p1 (by rw [← e3]; exact hfc)
    · intro hdvd hstart halign
      rw [e2]
      exact p2 hc hdvd hstart halign
  · intro hid hne hc
    obtain ⟨e1, e2, e3⟩ := setTexture_projections s id hid hne hc
    constructor
    · intro hfc
      rw [e1, ← closeAlignment_formula]
      exact p1 (by rw [← e3]; exact hfc)
    · intro hdvd hstart halign
      rw [e2]
      exact p2 hc hdvd hstart halign

/-- Counterexample to claim C2 as frozen: closing a LINES call that
holds a single (incomplete) vertex makes the next call start at vertex
offset 2, not a multiple of 4, even though no flush intervened. -/
theorem close_alignment_counterexample :
    (runOps [Op.beginMode .lines, Op.vertex 0 0 0, Op.beginMode .triangles]
        (initBatch 100 1 7 3)).flushCount = 0 ∧
    (runOps [Op.beginMode .lines, Op.vertex 0 0 0, Op.beginMode .triangles]
        (initBatch 100 1 7 3)).vertexCounter = 2 ∧
    ¬ (4 ∣ (runOps [Op.beginMode .lines, Op.vertex 0 0 0, Op.beginMode .triangles]
        (initBatch 100 1 7 3)).vertexCounter) := by
  refine ⟨by decide, by decide, ?_⟩
  intro hdvd
  have : (runOps [Op.beginMode .lines, Op.vertex 0 0 0, Op.beginMode .triangles]
      (initBatch 100 1 7 3)).vertexCounter = 2 := by decide
  omega

/-- Witness for claim C2 (amended): on a LINES call holding one
complete pair (two vertices) under the default texture 7, a switch to
TRIANGLES and a switch to texture 9 both close it with alignment 2
(ledger entry ⟨LINES, 2, 2, 7⟩) and leave the next call starting at
offset 4. -/
theorem close_alignment_witness :
    ((runOps [Op.beginMode .lines, Op.vertex 0 0 0, Op.vertex 0 0 0]
          (initBatch 100 1 7 3)).openDraw.mode ≠ DrawMode.triangles ∧
      (9 : ℕ) ≠ 0 ∧
      (runOps [Op.beginMode .lines, Op.vertex 0 0 0, Op.vertex 0 0 0]
          (initBatch 100 1 7 3)).openDraw.textureId ≠ 9 ∧
      0 < (runOps [Op.beginMode .lines, Op.vertex 0 0 0, Op.vertex 0 0 0]
          (initBatch 100 1 7 3)).openDraw.vertexCount ∧
      arity (runOps [Op.beginMode .lines, Op.vertex 0 0 0, Op.vertex 0 0 0]
          (initBatch 100 1 7 3)).openDraw.mode ∣
        (runOps [Op.beginMode .lines, Op.vertex 0 0 0, Op.vertex 0 0 0]
          (initBatch 100 1 7 3)).openDraw.vertexCount) ∧
    ((rlBegin .triangles (runOps [Op.beginMode .lines, Op.vertex 0 0 0, Op.vertex 0 0 0]
          (initBatch 100 1 7 3))).closedDraws.getLast? =
        some { mode := DrawMode.lines, vertexCount := 2, vertexAlignment := 2
               textureId := 7 } ∧
      4 ∣ (rlBegin .triangles (runOps [Op.beginMode .lines, Op.vertex 0 0 0, Op.vertex 0 0 0]
          (initBatch 100 1 7 3))).vertexCounter ∧
      (rlSetTexture 9 (runOps [Op.beginMode .lines, Op.vertex 0 0 0, Op.vertex 0 0 0]
          (initBatch 100 1 7 3))).closedDraws.getLast? =
        some { mode := DrawMode.lines, vertexCount := 2, vertexAlignment := 2
               textureId := 7 } ∧
      4 ∣ (rlSetTexture 9 (runOps [Op.beginMode .lines, Op.vertex 0 0 0, Op.vertex 0 0 0]
          (initBatch 100 1 7 3))).vertexCounter) := by
  have h := close_alignment_on_switch
    (runOps [Op.beginMode .lines, Op.vertex 0 0 0, Op.vertex 0 0 0] (initBatch 100 1 7 3))
    DrawMode.triangles 9
  obtain ⟨hb1, hb2⟩ := h.1 (by decide) (by decide)
  obtain ⟨ht1, ht2⟩ := h.2 (by decide) (by decide) (by decide)
  refine ⟨⟨by decide, by decide, by decide, by decide, by decide⟩, ?_, ?_, ?_, ?_⟩
  · rw [hb1 (by decide)]
    decide
  · exact hb2 (by decide) (by decide) (by decide)
  · rw [ht1 (by decide)]
    decide
  · exact ht2 (by decide) (by decide) (by decide)

/-! ## Claim C5: overflowing a QUADS stream -/

theorem check_ge_gpu (n : ℕ) (s : BatchState)
    (h : s.elementCount * 4 ≤ s.vertexCounter + n) (hv : 0 < s.vertexCounter) :
    (rlCheckRenderBatchLimit n s).2.submittedVertices =
      s.submittedVertices + s.vertexCounter ∧
    (rlCheckRenderBatchLimit n s).2.gpuSubmissions = s.gpuSubmissions + 1 := by
  simp [rlCheckRenderBatchLimit, h, rlDrawRenderBatch, hv]

theorem runOps_append (l1 l2 : List Op) (s : BatchState) :
    runOps (l1 ++ l2) s = runOps l2 (runOps l1 s) :=
  List.foldl_append _ _ l1 l2

theorem quads_run_fields (cap nbuf defTex shaderId : ℕ) (hcap : 1 ≤ cap) (n : ℕ) :
    (runOps (List.replicate n (Op.vertex 0 0 0))
        (initBatch cap nbuf defTex shaderId)).elementCount = cap ∧
    (runOps (List.replicate n (Op.vertex 0 0 0))
        (initBatch cap nbuf defTex shaderId)).openDraw.mode = DrawMode.quads ∧
    (runOps (List.replicate n (Op.vertex 0 0 0))
        (initBatch cap nbuf defTex shaderId)).closedDraws = [] ∧
    (runOps (List.replicate n (Op.vertex 0 0 0))
        (initBatch cap nbuf defTex shaderId)).openDraw.vertexCount =
      (runOps (List.replicate n (Op.vertex 0 0 0))
        (initBatch cap nbuf defTex shaderId)).vertexCounter ∧
    (runOps (List.replicate n (Op.vertex 0 0 0))
        (initBatch cap nbuf defTex shaderId)).submittedVertices =
      cap * 4 * (runOps (List.replicate n (Op.vertex 0 0 0))
        (initBatch cap nbuf defTex shaderId)).flushCount ∧
    (runOps (List.replicate n (Op.vertex 0 0 0))
        (initBatch cap nbuf defTex shaderId)).gpuSubmissions =
      (runOps (List.replicate n (Op.vertex 0 0 0))
        (initBatch cap nbuf defTex shaderId)).flushCount ∧
    (runOps (List.replicate n (Op.vertex 0 0 0))
        (initBatch cap nbuf defTex shaderId)).vertexCounter +
      cap * 4 * (runOps (List.replicate n (Op.vertex 0 0 0))
        (initBatch cap nbuf defTex shaderId)).flushCount = n ∧
    (runOps (List.replicate n (Op.vertex 0 0 0))
        (initBatch cap nbuf defTex shaderId)).vertexCounter ≤ cap * 4 ∧
    (n ≠ 0 → 1 ≤ (runOps (List.replicate n (Op.vertex 0 0 0))
        (initBatch cap nbuf defTex shaderId)).vertexCounter) ∧
    (n = 0 → (runOps (List.replicate n (Op.vertex 0 0 0))
        (initBatch cap nbuf defTex shaderId)).flushCount = 0) := by
  induction n with
  | zero =>
    refine ⟨rfl, rfl, rfl, rfl, by simp [runOps, initBatch], rfl, by simp [runOps, initBatch],
      by simp [runOps, initBatch], by simp, fun _ => rfl⟩
  | succ k ih =>
    obtain ⟨hec, hm, hcd, hcnt, hsub, hgpu, hsum, hle, hpos0, hzero⟩ := ih
    rw [List.replicate_succ', runOps_append]
    set s := runOps (List.replicate k (Op.vertex 0 0 0)) (initBatch cap nbuf defTex shaderId)
      with hs
    have hrun1 : runOps [Op.vertex 0 0 0] s = rlVertex3f 0 0 0 s := rfl
    rw [hrun1]
    obtain ⟨hfe, hfv, hfm, hfc, w, hfw, hfi⟩ := rlVertex3f_fields 0 0 0 s
    obtain ⟨cfl, ccd, ctex, csub, cgpu⟩ := rlVertex3f_carried 0 0 0 s
    by_cases hvN : s.vertexCounter = cap * 4
    · -- the buffer is exactly full: this vertex triggers the flush
      have hb : s.openDraw.vertexCount % arity s.openDraw.mode = 0 := by
        rw [hcnt, hm]
        simp only [arity]
        omega
      have hg : (s.elementCount : ℤ) * 4 - 4 < (s.vertexCounter : ℤ) := by
        rw [hec, hvN]
        omega
      have hge : s.elementCount * 4 ≤ s.vertexCounter + (arity s.openDraw.mode + 1) := by
        rw [hec, hvN]
        omega
      have hvpos : 0 < s.vertexCounter := by omega
      have hvbc := vbc_flush s hg hb
      rw [hvbc] at hfe hfv hfm hfc hfw hfi cfl ccd ctex csub cgpu
      obtain ⟨t0, tm, tc, ttex, tw, tec, tfc, tcd, tdep, tdt⟩ :=
        check_ge_fields (arity s.openDraw.mode + 1) s hge
      obtain ⟨tsub, tgpu⟩ := check_ge_gpu (arity s.openDraw.mode + 1) s hge hvpos
      have hmul : cap * 4 * (s.flushCount + 1) = cap * 4 * s.flushCount + cap * 4 :=
        Nat.mul_succ _ _
      refine ⟨by rw [hfe, tec, hec], by rw [hfm, tm, hm], by rw [ccd, tcd],
        by rw [hfc, tc, hfv, t0], ?_, ?_, ?_, ?_, ?_, ?_⟩
      · rw [csub, tsub, cfl, tfc, hsub, hvN, hmul]
      · rw [cgpu, tgpu, cfl, tfc, hgpu]
      · rw [hfv, t0, cfl, tfc, hmul]
        omega
      · rw [hfv, t0]
        omega
      · intro _
        rw [hfv, t0]
      · intro hk
        omega
    · -- room remains: no flush happens on this vertex
      have hvlt : s.vertexCounter < cap * 4 := by omega
      have hvbc : vertexBoundaryCheck s = s := by
        by_cases hb : s.openDraw.vertexCount % arity s.openDraw.mode = 0
        · apply vbc_guard_false
          rw [hcnt, hm] at hb
          simp only [arity] at hb
          rw [hec]
          omega
        · exact vbc_not_boundary s hb
      rw [hvbc] at hfe hfv hfm hfc hfw hfi cfl ccd ctex csub cgpu
      refine ⟨by rw [hfe, hec], by rw [hfm, hm], by rw [ccd, hcd],
        by rw [hfc, hfv, hcnt], ?_, ?_, ?_, ?_, ?_, ?_⟩
      · rw [csub, cfl, hsub]
      · rw [cgpu, cfl, hgpu]
      · rw [hfv, cfl]
        omega
      · rw [hfv]
        omega
      · intro _
        rw [hfv]
        omega
      · intro hk
        omega

/-- Claim C5 (amended): streaming n vertices in QUADS mode into a batch
of capacity cap quads loses no data (submitted plus pending vertices
equal n, with gpu submissions matching flushes, each carrying exactly
cap*4 vertices) and performs (n-1)/(cap*4) intermediate flushes; the
cursor afterwards equals n mod cap*4 except when n is a nonzero
multiple of cap*4, where it equals cap*4 (the flush for a full buffer
happens only when the next vertex arrives). -/
theorem quads_overflow_cursor (cap nbuf defTex shaderId n : ℕ) (hcap : 1 ≤ cap) :
    (runOps (List.replicate n (Op.vertex 0 0 0))
        (initBatch cap nbuf defTex shaderId)).vertexCounter =
      (if n % (cap * 4) = 0 ∧ n ≠ 0 then cap * 4 else n % (cap * 4)) ∧
    (runOps (List.replicate n (Op.vertex 0 0 0))
        (initBatch cap nbuf defTex shaderId)).submittedVertices +
      (runOps (List.replicate n (Op.vertex 0 0 0))
        (initBatch cap nbuf defTex shaderId)).vertexCounter = n ∧
    (runOps (List.replicate n (Op.vertex 0 0 0))
        (initBatch cap nbuf defTex shaderId)).flushCount = (n - 1) / (cap * 4) ∧
    (runOps (List.replicate n (Op.vertex 0 0 0))
        (initBatch cap nbuf defTex shaderId)).gpuSubmissions =
      (runOps (List.replicate n (Op.vertex 0 0 0))
        (initBatch cap nbuf defTex shaderId)).flushCount ∧
    (runOps (List.replicate n (Op.vertex 0 0 0))
        (initBatch cap nbuf defTex shaderId)).submittedVertices =
      cap * 4 * (runOps (List.replicate n (Op.vertex 0 0 0))
        (initBatch cap nbuf defTex shaderId)).flushCount := by
  obtain ⟨hec, hm, hcd, hcnt, hsub, hgpu, hsum, hle, hpos0, hzero⟩ :=
    quads_run_fields cap nbuf defTex shaderId hcap n
  set s := runOps (List.replicate n (Op.vertex 0 0 0)) (initBatch cap nbuf defTex shaderId)
  have hNpos : 0 < cap * 4 := by omega
  constructor
  · rcases Nat.eq_zero_or_pos n with hn0 | hnpos
    · subst hn0
      have hfc0 := hzero rfl
      have hv0 : s.vertexCounter = 0 := by
        rw [hfc0] at hsum
        omega
      simp [hv0]
    · have hv1 : 1 ≤ s.vertexCounter := hpos0 (by omega)
      rcases Nat.lt_or_ge s.vertexCounter (cap * 4) with hvlt | hvge
      · have hmod : n % (cap * 4) = s.vertexCounter := by
          rw [← hsum, Nat.add_comm, Nat.mul_add_mod, Nat.mod_eq_of_lt hvlt]
        rw [if_neg (by omega), hmod]
      · have hvN : s.vertexCounter = cap * 4 := by omega
        have hn : n = cap * 4 * (s.flushCount + 1) := by
          rw [Nat.mul_succ]
          omega
        rw [if_pos ⟨by rw [hn]; exact Nat.mul_mod_right _ _, by omega⟩, hvN]
  · refine ⟨by omega, ?_, hgpu, hsub⟩
    rcases Nat.eq_zero_or_pos n with hn0 | hnpos
    · subst hn0
      rw [hzero rfl]
      simp
    · have hv1 : 1 ≤ s.vertexCounter := hpos0 (by omega)
      have h1 : n - 1 = cap * 4 * s.flushCount + (s.vertexCounter - 1) := by omega
      rw [h1, Nat.mul_add_div hNpos, Nat.div_eq_of_lt (by omega), Nat.add_zero]

/-- Counterexample to claim C5 as frozen: with capacity 1 quad, eight
QUADS vertices (two quads) leave the vertex cursor at 4, not at
8 mod (1*4) = 0 — the flush for the full buffer is deferred until a
further vertex arrives. -/
theorem quads_overflow_cursor_counterexample :
    (runOps (List.replicate 8 (Op.vertex 0 0 0)) (initBatch 1 1 7 3)).vertexCounter = 4 ∧
    (runOps (List.replicate 8 (Op.vertex 0 0 0)) (initBatch 1 1 7 3)).vertexCounter ≠
      8 % (1 * 4) := by
  exact ⟨by decide, by decide⟩

/-- Witness for claim C5 (amended) at the specification's own scenario
(capacity 1 quad, two quads emitted): exactly one intermediate flush,
no vertex lost, cursor left at the full-buffer position 4. -/
theorem quads_overflow_cursor_witness :
    1 ≤ 1 ∧
    ((runOps (List.replicate 8 (Op.vertex 0 0 0)) (initBatch 1 1 7 3)).vertexCounter =
        (if 8 % (1 * 4) = 0 ∧ 8 ≠ 0 then 1 * 4 else 8 % (1 * 4)) ∧
      (runOps (List.replicate 8 (Op.vertex 0 0 0)) (initBatch 1 1 7 3)).submittedVertices +
        (runOps (List.replicate 8 (Op.vertex 0 0 0)) (initBatch 1 1 7 3)).vertexCounter = 8 ∧
      (runOps (List.replicate 8 (Op.vertex 0 0 0)) (initBatch 1 1 7 3)).flushCount =
        (8 - 1) / (1 * 4)) := by
  have h := quads_overflow_cursor 1 1 7 3 8 (by decide)
  exact ⟨by decide, h.1, h.2.1, h.2.2.1⟩

/-! ## Claim C6: texture switches never merge draw calls -/

theorem flushCount_le_check (n : ℕ) (s : BatchState) :
    s.flushCount ≤ (rlCheckRenderBatchLimit n s).2.flushCount :=
  check_flushCount_le n s

theorem flushCount_le_close (s : BatchState) :
    s.flushCount ≤ (closeDrawCall s).flushCount := by
  by_cases hov : s.elementCount * 4 ≤
      s.vertexCounter + closeAlignment s.openDraw.mode s.openDraw.vertexCount
  · rw [(close_flush_fields s hov).2.2.2.2.2.1]
    omega
  · rw [(close_noflush_fields s (by omega)).2.2.2.1]

theorem vbc_flushCount_le (s : BatchState) :
    s.flushCount ≤ (vertexBoundaryCheck s).flushCount := by
  unfold vertexBoundaryCheck
  split_ifs <;> first | exact le_refl _ | exact check_flushCount_le _ _

theorem vbc_noflush (s : BatchState)
    (h : (vertexBoundaryCheck s).flushCount = s.flushCount) :
    vertexBoundaryCheck s = s := by
  unfold vertexBoundaryCheck at h ⊢
  split_ifs at h ⊢ <;> first | rfl | exact check_noflush _ _ h

theorem flushCount_le_applyOp (op : Op) (s : BatchState) :
    s.flushCount ≤ (applyOp op s).flushCount := by
  cases op with
  | beginMode mode =>
    show s.flushCount ≤ (rlBegin mode s).flushCount
    unfold rlBegin
    dsimp only
    split_ifs <;>
      first
      | exact le_refl _
      | (simp only [drawBatch_flushCount]
         have := flushCount_le_close s
         omega)
  | vertex x y z =>
    show s.flushCount ≤ (rlVertex3f x y z s).flushCount
    rw [(rlVertex3f_carried x y z s).1]
    exact vbc_flushCount_le s
  | endMode => exact le_refl _
  | texCoord x y => exact le_refl _
  | color r g b a => exact le_refl _
  | setTexture id =>
    show s.flushCount ≤ (rlSetTexture id s).flushCount
    unfold rlSetTexture
    dsimp only
    split_ifs <;>
      first
      | exact le_refl _
      | (simp only [drawBatch_flushCount]
         have := flushCount_le_close s
         omega)
  | setShader id locs =>
    show s.flushCount ≤ (rlSetShader id locs s).flushCount
    unfold rlSetShader
    split_ifs <;> simp [drawBatch_flushCount]
  | drawBatch =>
    show s.flushCount ≤ (rlDrawRenderBatch s).flushCount
    rw [drawBatch_flushCount]
    omega
  | checkLimit n => exact check_flushCount_le n s

theorem flushCount_le_runOps (ops : List Op) (s : BatchState) :
    s.flushCount ≤ (runOps ops s).flushCount := by
  induction ops generalizing s with
  | nil => exact le_refl _
  | cons op rest ih =>
    exact le_trans (flushCount_le_applyOp op s) (ih (applyOp op s))

theorem setTexture_textureId (id : ℕ) (s : BatchState) (hid : id ≠ 0) :
    (rlSetTexture id s).openDraw.textureId = id := by
  unfold rlSetTexture
  rw [if_neg hid]
  by_cases ht : s.openDraw.textureId ≠ id
  · rw [if_pos ht]
  · rw [if_neg ht]
    omega

theorem vertex_noflush_fields (x y z : ℚ) (s : BatchState)
    (h : (rlVertex3f x y z s).flushCount = s.flushCount) :
    (rlVertex3f x y z s).openDraw.textureId = s.openDraw.textureId ∧
    (rlVertex3f x y z s).closedDraws = s.closedDraws ∧
    (rlVertex3f x y z s).openDraw.vertexCount = s.openDraw.vertexCount + 1 := by
  obtain ⟨cfl, ccd, ctex, csub, cgpu⟩ := rlVertex3f_carried x y z s
  obtain ⟨hfe, hfv, hfm, hfc, w, hfw, hfi⟩ := rlVertex3f_fields x y z s
  have hvbc : vertexBoundaryCheck s = s := by
    apply vbc_noflush
    rw [← cfl, h]
  rw [hvbc] at ctex ccd hfc
  exact ⟨ctex, ccd, hfc⟩

theorem vertex_run_noflush (verts : List (ℚ × ℚ × ℚ)) (s : BatchState)
    (h : (runOps (verts.map fun p => Op.vertex p.1 p.2.1 p.2.2) s).flushCount =
      s.flushCount) :
    (runOps (verts.map fun p => Op.vertex p.1 p.2.1 p.2.2) s).openDraw.textureId =
      s.openDraw.textureId ∧
    (runOps (verts.map fun p => Op.vertex p.1 p.2.1 p.2.2) s).closedDraws =
      s.closedDraws ∧
    (runOps (verts.map fun p => Op.vertex p.1 p.2.1 p.2.2) s).openDraw.vertexCount =
      s.openDraw.vertexCount + verts.length := by
  induction verts generalizing s with
  | nil => exact ⟨rfl, rfl, rfl⟩
  | cons p rest ih =>
    have hstep : runOps ((p :: rest).map fun p => Op.vertex p.1 p.2.1 p.2.2) s =
        runOps (rest.map fun p => Op.vertex p.1 p.2.1 p.2.2)
          (rlVertex3f p.1 p.2.1 p.2.2 s) := rfl
    rw [hstep] at h ⊢
    have hm1 : s.flushCount ≤ (rlVertex3f p.1 p.2.1 p.2.2 s).flushCount :=
      flushCount_le_applyOp (Op.vertex p.1 p.2.1 p.2.2) s
    have hm2 : (rlVertex3f p.1 p.2.1 p.2.2 s).flushCount ≤
        (runOps (rest.map fun p => Op.vertex p.1 p.2.1 p.2.2)
          (rlVertex3f p.1 p.2.1 p.2.2 s)).flushCount :=
      flushCount_le_runOps _ _
    have h1 : (rlVertex3f p.1 p.2.1 p.2.2 s).flushCount = s.flushCount := by omega
    obtain ⟨vtex, vcd, vcnt⟩ := vertex_noflush_fields p.1 p.2.1 p.2.2 s h1
    obtain ⟨rtex, rcd, rcnt⟩ := ih (rlVertex3f p.1 p.2.1 p.2.2 s) (by omega)
    refine ⟨by rw [rtex, vtex], by rw [rcd, vcd], ?_⟩
    rw [rcnt, vcnt]
    simp only [List.length_cons]
    omega

theorem setTexture_close_fields (id : ℕ) (s : BatchState) (hid : id ≠ 0)
    (hne : s.openDraw.textureId ≠ id) (hc : 0 < s.openDraw.vertexCount)
    (hnf : (rlSetTexture id s).flushCount = s.flushCount) :
    (rlSetTexture id s).closedDraws = s.closedDraws ++
      [{ s.openDraw with
         vertexAlignment := closeAlignment s.openDraw.mode s.openDraw.vertexCount }] ∧
    (rlSetTexture id s).openDraw.textureId = id := by
  unfold rlSetTexture at hnf ⊢
  rw [if_neg hid, if_pos hne, if_pos hc] at hnf ⊢
  dsimp only at hnf ⊢
  by_cases hov : s.elementCount * 4 ≤
      s.vertexCounter + closeAlignment s.openDraw.mode s.openDraw.vertexCount
  · exfalso
    have hfc := (close_flush_fields s hov).2.2.2.2.2.1
    by_cases hdc : RL_DEFAULT_BATCH_DRAWCALLS ≤ drawCounter (closeDrawCall s)
    · rw [if_pos hdc] at hnf
      rw [drawBatch_flushCount, hfc] at hnf
      omega
    · rw [if_neg hdc] at hnf
      rw [hfc] at hnf
      omega
  · obtain ⟨t0, tcd, tod, tfc, tdt, tec⟩ := close_noflush_fields s (by omega)
    by_cases hdc : RL_DEFAULT_BATCH_DRAWCALLS ≤ drawCounter (closeDrawCall s)
    · exfalso
      rw [if_pos hdc, drawBatch_flushCount, tfc] at hnf
      omega
    · rw [if_neg hdc]
      exact ⟨tcd, rfl⟩

/-- Claim C6: for rlSetTexture(a), at least one vertex emitted, then
rlSetTexture(b), with a and b nonzero and distinct and no intervening
flush, the ledger contains an entry with textureId a strictly before an
entry with textureId b — vertices under different textures are never
merged into one draw call. -/
theorem texture_switch_ledger (s : BatchState) (a b : ℕ) (verts : List (ℚ × ℚ × ℚ))
    (ha : a ≠ 0) (hb : b ≠ 0) (hab : a ≠ b) (hv : verts ≠ [])
    (hnf : (rlSetTexture b (runOps (verts.map fun p => Op.vertex p.1 p.2.1 p.2.2)
        (rlSetTexture a s))).flushCount = s.flushCount) :
    ∃ (i j : ℕ) (da db : DrawCall), i < j ∧
      (ledger (rlSetTexture b (runOps (verts.map fun p => Op.vertex p.1 p.2.1 p.2.2)
        (rlSetTexture a s))))[i]? = some da ∧ da.textureId = a ∧
      (ledger (rlSetTexture b (runOps (verts.map fun p => Op.vertex p.1 p.2.1 p.2.2)
        (rlSetTexture a s))))[j]? = some db ∧ db.textureId = b := by
  obtain ⟨s1, hs1⟩ : ∃ t, rlSetTexture a s = t := ⟨_, rfl⟩
  rw [hs1] at hnf ⊢
  obtain ⟨s2, hs2⟩ : ∃ t, runOps (verts.map fun p => Op.vertex p.1 p.2.1 p.2.2) s1 = t :=
    ⟨_, rfl⟩
  rw [hs2] at hnf ⊢
  have m1 : s.flushCount ≤ s1.flushCount := by
    rw [← hs1]
    exact flushCount_le_applyOp (Op.setTexture a) s
  have m2 : s1.flushCount ≤ s2.flushCount := by
    rw [← hs2]
    exact flushCount_le_runOps _ s1
  have m3 : s2.flushCount ≤ (rlSetTexture b s2).flushCount :=
    flushCount_le_applyOp (Op.setTexture b) s2
  have ha1 : s1.openDraw.textureId = a := by
    rw [← hs1]
    exact setTexture_textureId a s ha
  obtain ⟨rtex, rcd, rcnt⟩ := vertex_run_noflush verts s1 (by rw [hs2]; omega)
  rw [hs2] at rtex rcd rcnt
  have hlen : 1 ≤ verts.length := by
    cases verts with
    | nil => exact absurd rfl hv
    | cons p rest => simp
  have hbne : s2.openDraw.textureId ≠ b := by
    rw [rtex, ha1]
    exact hab
  have hcpos : 0 < s2.openDraw.vertexCount := by
    rw [rcnt]
    omega
  obtain ⟨hcd, htex⟩ := setTexture_close_fields b s2 hb hbne hcpos (by omega)
  refine ⟨s2.closedDraws.length, s2.closedDraws.length + 1,
    { s2.openDraw with
      vertexAlignment := closeAlignment s2.openDraw.mode s2.openDraw.vertexCount },
    (rlSetTexture b s2).openDraw, by omega, ?_, ?_, ?_, htex⟩
  · rw [ledger, hcd, List.append_assoc,
      List.getElem?_append_right (le_refl s2.closedDraws.length)]
    simp
  · show ({ s2.openDraw with
      vertexAlignment := closeAlignment s2.openDraw.mode s2.openDraw.vertexCount
      : DrawCall }).textureId = a
    rw [show ({ s2.openDraw with
      vertexAlignment := closeAlignment s2.openDraw.mode s2.openDraw.vertexCount
      : DrawCall }).textureId = s2.openDraw.textureId from rfl, rtex, ha1]
  · rw [ledger, hcd, List.append_assoc,
      List.getElem?_append_right (by omega)]
    simp

/-- Witness for claim C6: a fresh batch, texture 5, one vertex, texture
9: the ledger holds the texture-5 call before the open texture-9
call with no flush in between. -/
theorem texture_switch_ledger_witness :
    (5 ≠ 0 ∧ 9 ≠ 0 ∧ (5 : ℕ) ≠ 9 ∧
      (rlSetTexture 9 (runOps ([((0 : ℚ), (0 : ℚ), (0 : ℚ))].map
          fun p => Op.vertex p.1 p.2.1 p.2.2)
        (rlSetTexture 5 (initBatch 8192 1 7 3)))).flushCount =
        (initBatch 8192 1 7 3).flushCount) ∧
    ∃ (i j : ℕ) (da db : DrawCall), i < j ∧
      (ledger (rlSetTexture 9 (runOps ([((0 : ℚ), (0 : ℚ), (0 : ℚ))].map
          fun p => Op.vertex p.1 p.2.1 p.2.2)
        (rlSetTexture 5 (initBatch 8192 1 7 3)))))[i]? = some da ∧ da.textureId = 5 ∧
      (ledger (rlSetTexture 9 (runOps ([((0 : ℚ), (0 : ℚ), (0 : ℚ))].map
          fun p => Op.vertex p.1 p.2.1 p.2.2)
        (rlSetTexture 5 (initBatch 8192 1 7 3)))))[j]? = some db ∧ db.textureId = 9 := by
  refine ⟨⟨by decide, by decide, by decide, by decide⟩, ?_⟩
  exact texture_switch_ledger (initBatch 8192 1 7 3) 5 9 [(0, 0, 0)]
    (by decide) (by decide) (by decide) (by decide) (by decide)

end Rlgl
